import Mathlib

/-!
Verification of the epidemiological spread-analysis engine
(`internal/services` PropagacionService and its HTTP handler).

Modelling conventions:
* Go `float64` values are modelled as exact rationals (`ℚ`); `int(x)`
  conversion is truncation toward zero (`goInt`) and `math.Round` is
  rounding half away from zero (`goRound`).
* Dates are day-granular (the SQL layer truncates `consultation_date`
  with `::date`); a date is an `Int` counting days.  `time.Now()` is the
  injected parameter `ahora`.
* Go map iteration order is not deterministic; every function that
  ranges over a map takes an explicit iteration order (a list of keys
  that must be a permutation of the map's key set).
* `sort.Slice` is modelled by `List.insertionSort` (a stable sort that
  the kernel can evaluate) with the corresponding non-strict comparator;
  Go's `sort.Slice` is unstable, but the arrangement ambiguity among
  tied elements is already captured by the iteration-order parameters; `sort.Slice` inside `calcularRutasPropagacion`
  re-sorts the very slice owned by the caller, so the model returns the
  re-sorted district list alongside the routes.
* The transcendental operations used by the haversine distance
  (`math.Sin`, `math.Cos`, `math.Sqrt`, `math.Atan2`, `math.Pi`) have no
  exact rational counterpart; they are abstracted as an explicit bundle
  `OpsTrig` that every theorem quantifies over.  No claim depends on the
  numeric value of a distance.
-/

namespace Propagacion

/-- Go `int(x)` conversion on a float: truncation toward zero. -/
def goInt (x : ℚ) : Int := if 0 ≤ x then ⌊x⌋ else ⌈x⌉

/-- Go `math.Round x`: round half away from zero. -/
def goRound (x : ℚ) : ℚ := if 0 ≤ x then ((⌊x + 1/2⌋ : Int) : ℚ) else -((⌊-x + 1/2⌋ : Int) : ℚ)

/-- Bundle of the transcendental float operations used by the haversine
formula, abstracted because they have no exact rational model. -/
structure OpsTrig where
  pi : ℚ
  sin : ℚ → ℚ
  cos : ℚ → ℚ
  sqrt : ℚ → ℚ
  atan2 : ℚ → ℚ → ℚ

/-- Trivial instantiation of `OpsTrig`, used to evaluate the model on
concrete inputs (no claim depends on the value of a distance). -/
def opsTrigCero : OpsTrig := { pi := 0, sin := fun _ => 0, cos := fun _ => 0, sqrt := fun _ => 0, atan2 := fun _ _ => 0 }

/-- `DensidadDistrito` (services/propagacion_service.go): static demographic
record of one district of Santa Cruz. -/
structure DensidadDistrito where
  habitantes : Int
  areaKm2 : ℚ
  densidad : Int
  conectividad : List String
  tipoZona : String
deriving DecidableEq, Repr

/-- The hardcoded `densidadPoblacionalSantaCruz` map, as a lookup function. -/
def densidadPoblacionalSantaCruz (distrito : String) : Option DensidadDistrito :=
  if distrito = "Equipetrol" then
    some { habitantes := 85000, areaKm2 := 12.5, densidad := 6800,
           conectividad := ["Norte", "Centro", "Sur"], tipoZona := "Residencial-Comercial" }
  else if distrito = "Norte" then
    some { habitantes := 320000, areaKm2 := 45.8, densidad := 6986,
           conectividad := ["Equipetrol", "Plan Tres Mil", "Este"], tipoZona := "Residencial-Popular" }
  else if distrito = "Plan Tres Mil" then
    some { habitantes := 180000, areaKm2 := 22.3, densidad := 8072,
           conectividad := ["Norte", "Sur", "Este"], tipoZona := "Popular-Alta Densidad" }
  else if distrito = "Villa 1ro de Mayo" then
    some { habitantes := 95000, areaKm2 := 18.7, densidad := 5080,
           conectividad := ["Oeste", "Centro"], tipoZona := "Residencial" }
  else if distrito = "Sur" then
    some { habitantes := 125000, areaKm2 := 28.4, densidad := 4401,
           conectividad := ["Equipetrol", "Plan Tres Mil", "Centro"], tipoZona := "Residencial-Comercial" }
  else if distrito = "Oeste" then
    some { habitantes := 75000, areaKm2 := 35.2, densidad := 2131,
           conectividad := ["Villa 1ro de Mayo", "Centro"], tipoZona := "Residencial-Periférico" }
  else if distrito = "Este" then
    some { habitantes := 60000, areaKm2 := 42.1, densidad := 1425,
           conectividad := ["Norte", "Plan Tres Mil"], tipoZona := "Periférico-Rural" }
  else if distrito = "Centro" then
    some { habitantes := 45000, areaKm2 := 8.2, densidad := 5488,
           conectividad := ["Equipetrol", "Sur", "Oeste", "Villa 1ro de Mayo"], tipoZona := "Comercial-Histórico" }
  else none

/-- Key set of the `densidadPoblacionalSantaCruz` map. -/
def clavesRegistro : List String :=
  ["Equipetrol", "Norte", "Plan Tres Mil", "Villa 1ro de Mayo", "Sur", "Oeste", "Este", "Centro"]

/-- `Coordenada`: a latitude/longitude pair. -/
structure Coordenada where
  latitud : ℚ
  longitud : ℚ
deriving DecidableEq, Repr

/-- One row of `historial_clinico`, restricted to the columns consulted by
`obtenerCasosTemporales` (models.HistorialClinico). -/
structure RegistroClinico where
  enfermedad : String
  fechaConsulta : Int
  distrito : String
  esContagioso : Bool
  latitud : ℚ
  longitud : ℚ
deriving DecidableEq, Repr

/-- `CasoTemporal`: one per-(date, district) aggregate. -/
structure CasoTemporal where
  fecha : Int
  distrito : String
  totalCasos : Int
  casosContagiosos : Int
  coordenadas : Coordenada
deriving DecidableEq, Repr

/-- `DistritoAfectado`: the per-district summary. -/
structure DistritoAfectado where
  distrito : String
  primerCaso : Int
  ultimoCaso : Int
  totalCasos : Int
  densidadHab : Int
  velocidadLocal : ℚ
  riesgoExpansion : String
deriving DecidableEq, Repr

/-- `RutaPropagacion`: one inferred district-to-district propagation edge. -/
structure RutaPropagacion where
  distritoOrigen : String
  distritoDestino : String
  fechaPropagacion : Int
  diasTransicion : Int
  distanciaKm : ℚ
  velocidadKmDia : ℚ
deriving DecidableEq, Repr

/-- `PrediccionPropagacion`: one near-term risk prediction. -/
structure PrediccionPropagacion where
  distrito : String
  fechaPrediccion : Int
  casosPredichos : Int
  probabilidad : ℚ
  nivelRiesgo : String
deriving DecidableEq, Repr

/-- `PeriodoAnalisis`. -/
structure PeriodoAnalisis where
  fechaInicio : Int
  fechaFin : Int
  diasTotales : Int
deriving DecidableEq, Repr

/-- `VelocidadPropagacion`: the full analysis result. -/
structure VelocidadPropagacion where
  enfermedad : String
  periodoAnalisis : PeriodoAnalisis
  velocidadPromedio : ℚ
  velocidadMaxima : ℚ
  distritosAfectados : List DistritoAfectado
  rutasPropagacion : List RutaPropagacion
  factorDensidad : ℚ
  predictedSpread : List PrediccionPropagacion
  recomendacionesAlert : List String
deriving DecidableEq, Repr

/-- The `WHERE` clause of `obtenerCasosTemporales`:
`LOWER(enfermedad) = LOWER(?) AND consultation_date BETWEEN ? AND ?`. -/
def filtroCasos (enfermedad : String) (fechaInicio fechaFin : Int)
    (r : RegistroClinico) : Bool :=
  decide (r.enfermedad.toLower = enfermedad.toLower ∧
          fechaInicio ≤ r.fechaConsulta ∧ r.fechaConsulta ≤ fechaFin)

/-- The SQL query of `obtenerCasosTemporales`: filter rows by disease
(case-insensitively) and by the inclusive date window, group by
(date, district), order by date then district; each group yields
`COUNT(*)`, the contagious count and the mean coordinates. -/
def obtenerCasosTemporales (registros : List RegistroClinico) (enfermedad : String)
    (fechaInicio fechaFin : Int) : List CasoTemporal :=
  let filtrados := registros.filter (filtroCasos enfermedad fechaInicio fechaFin)
  let claves := (filtrados.map (fun r => (r.fechaConsulta, r.distrito))).dedup
  let clavesOrdenadas := claves.insertionSort (fun a b =>
    a.1 < b.1 ∨ (a.1 = b.1 ∧ a.2 ≤ b.2))
  clavesOrdenadas.map (fun clave =>
    let grupo := filtrados.filter (fun r =>
      decide (r.fechaConsulta = clave.1 ∧ r.distrito = clave.2))
    { fecha := clave.1, distrito := clave.2,
      totalCasos := (grupo.length : Int),
      casosContagiosos := ((grupo.filter (fun r => r.esContagioso)).length : Int),
      coordenadas := { latitud := (grupo.map (fun r => r.latitud)).sum / (grupo.length : ℚ),
                       longitud := (grupo.map (fun r => r.longitud)).sum / (grupo.length : ℚ) } })

/-- The density lookup at the head of the `else` branch of the grouping loop
in `analizarDistritosAfectados`: `densidad := 0` unless the district is in
the registry. -/
def densidadRegistrada (distrito : String) : Int :=
  match densidadPoblacionalSantaCruz distrito with
  | some info => info.densidad
  | none => 0

/-- The `else` branch of the grouping loop in `analizarDistritosAfectados`:
a fresh map entry for a district's first aggregate. -/
def nuevoDistrito (caso : CasoTemporal) : DistritoAfectado :=
  { distrito := caso.distrito, primerCaso := caso.fecha, ultimoCaso := caso.fecha,
    totalCasos := caso.totalCasos,
    densidadHab := densidadRegistrada caso.distrito,
    velocidadLocal := 0, riesgoExpansion := "" }

/-- The `exists` branch of the grouping loop in `analizarDistritosAfectados`. -/
def actualizarDistrito (d : DistritoAfectado) (caso : CasoTemporal) : DistritoAfectado :=
  { d with totalCasos := d.totalCasos + caso.totalCasos,
           ultimoCaso := if d.ultimoCaso < caso.fecha then caso.fecha else d.ultimoCaso,
           primerCaso := if caso.fecha < d.primerCaso then caso.fecha else d.primerCaso }

/-- One iteration of the grouping loop of `analizarDistritosAfectados` over
the `distritoMap` association list. -/
def pasoMapaDistritos (m : List (String × DistritoAfectado)) (caso : CasoTemporal) :
    List (String × DistritoAfectado) :=
  if (m.find? (fun kd => kd.1 = caso.distrito)).isSome then
    m.map (fun kd => if kd.1 = caso.distrito then (kd.1, actualizarDistrito kd.2 caso) else kd)
  else m ++ [(caso.distrito, nuevoDistrito caso)]

/-- The `distritoMap` built by the grouping loop of
`analizarDistritosAfectados`, as an association list with unique keys. -/
def construirMapaDistritos (casos : List CasoTemporal) : List (String × DistritoAfectado) :=
  casos.foldl pasoMapaDistritos []

/-- `calcularRiesgoExpansion`. -/
def calcularRiesgoExpansion (densidad : Int) (velocidad : ℚ) : String :=
  let score := (densidad : ℚ) / 1000 + velocidad * 2
  if 15 ≤ score then "CRÍTICO"
  else if 10 ≤ score then "ALTO"
  else if 5 ≤ score then "MEDIO"
  else "BAJO"

/-- The finishing loop of `analizarDistritosAfectados`: local velocity over
the day span and the expansion risk tier. -/
def finalizarDistrito (d : DistritoAfectado) : DistritoAfectado :=
  let dias : Int := (d.ultimoCaso - d.primerCaso) + 1
  let conVelocidad :=
    if 0 < dias then { d with velocidadLocal := (d.totalCasos : ℚ) / (dias : ℚ) } else d
  { conVelocidad with
      riesgoExpansion := calcularRiesgoExpansion conVelocidad.densidadHab conVelocidad.velocidadLocal }

/-- `analizarDistritosAfectados`; `orden` is the Go map iteration order over
`distritoMap` (a permutation of its keys). -/
def analizarDistritosAfectados (casos : List CasoTemporal) (orden : List String) :
    List DistritoAfectado :=
  let mapa := construirMapaDistritos casos
  let distritos := orden.filterMap (fun k =>
    (mapa.find? (fun kd => kd.1 = k)).map (fun kd => finalizarDistrito kd.2))
  distritos.insertionSort (fun a b => b.totalCasos ≤ a.totalCasos)

/-- Validity of a map iteration order for `analizarDistritosAfectados`. -/
def ordenDistritosValido (casos : List CasoTemporal) (orden : List String) : Prop :=
  orden.Perm ((construirMapaDistritos casos).map Prod.fst)

/-- The hardcoded district centroid table of `calcularDistanciaKm`. -/
def coordenadasDistritos (distrito : String) : Option Coordenada :=
  if distrito = "Equipetrol" then some { latitud := -17.7690416, longitud := -63.1956686 }
  else if distrito = "Norte" then some { latitud := -17.7987909, longitud := -63.210345 }
  else if distrito = "Plan Tres Mil" then some { latitud := -17.798792, longitud := -63.210345 }
  else if distrito = "Villa 1ro de Mayo" then some { latitud := -17.7379806, longitud := -63.2484834 }
  else if distrito = "Sur" then some { latitud := -17.7441931, longitud := -63.1801563 }
  else if distrito = "Oeste" then some { latitud := -17.7439533, longitud := -63.1756103 }
  else if distrito = "Este" then some { latitud := -17.7728417, longitud := -63.2374135 }
  else if distrito = "Centro" then some { latitud := -17.7807346, longitud := -63.1890985 }
  else none

/-- `calcularDistanciaHaversine`, over the abstract trig bundle. -/
def calcularDistanciaHaversine (T : OpsTrig) (lat1 lon1 lat2 lon2 : ℚ) : ℚ :=
  let dLat := (lat2 - lat1) * T.pi / 180
  let dLon := (lon2 - lon1) * T.pi / 180
  let a := T.sin (dLat/2) * T.sin (dLat/2) +
    T.cos (lat1 * T.pi / 180) * T.cos (lat2 * T.pi / 180) * (T.sin (dLon/2) * T.sin (dLon/2))
  let c := 2 * T.atan2 (T.sqrt a) (T.sqrt (1 - a))
  6371 * c

/-- `calcularDistanciaKm`: centroid lookup plus haversine; 0 when either
district is missing from the coordinate table. -/
def calcularDistanciaKm (T : OpsTrig) (distrito1 distrito2 : String) : ℚ :=
  match coordenadasDistritos distrito1, coordenadasDistritos distrito2 with
  | some c1, some c2 => calcularDistanciaHaversine T c1.latitud c1.longitud c2.latitud c2.longitud
  | _, _ => 0

/-- The edge record built inside the inner loop of `calcularRutasPropagacion`. -/
def rutaDe (T : OpsTrig) (origen destino : DistritoAfectado) : RutaPropagacion :=
  let diasTransicion := destino.primerCaso - origen.primerCaso
  let distancia := calcularDistanciaKm T origen.distrito destino.distrito
  { distritoOrigen := origen.distrito, distritoDestino := destino.distrito,
    fechaPropagacion := destino.primerCaso, diasTransicion := diasTransicion,
    distanciaKm := distancia,
    velocidadKmDia := if 0 < diasTransicion then distancia / (diasTransicion : ℚ) else 0 }

/-- The innermost loop of `calcularRutasPropagacion`: edges from `origen`
toward districts named `conectado` among the later (`j > i`) entries. -/
def destinosConectados (T : OpsTrig) (origen : DistritoAfectado) (conectado : String)
    (posteriores : List DistritoAfectado) : List RutaPropagacion :=
  posteriores.filterMap (fun destino =>
    if destino.distrito = conectado ∧
       0 < destino.primerCaso - origen.primerCaso ∧
       destino.primerCaso - origen.primerCaso ≤ 14
    then some (rutaDe T origen destino) else none)

/-- The middle loop of `calcularRutasPropagacion`: all edges out of `origen`,
following its registry adjacency list. -/
def rutasDesde (T : OpsTrig) (origen : DistritoAfectado)
    (posteriores : List DistritoAfectado) : List RutaPropagacion :=
  match densidadPoblacionalSantaCruz origen.distrito with
  | some info => info.conectividad.flatMap (fun c => destinosConectados T origen c posteriores)
  | none => []

/-- The outer loop of `calcularRutasPropagacion` over the date-sorted list. -/
def rutasAux (T : OpsTrig) : List DistritoAfectado → List RutaPropagacion
  | [] => []
  | origen :: resto => rutasDesde T origen resto ++ rutasAux T resto

/-- `calcularRutasPropagacion`.  The Go function re-sorts the caller's slice
in place (`sort.Slice` shares the backing array), so the model also returns
the re-sorted district list. -/
def calcularRutasPropagacion (T : OpsTrig) (distritos : List DistritoAfectado) :
    List RutaPropagacion × List DistritoAfectado :=
  let ordenados := distritos.insertionSort (fun a b => a.primerCaso ≤ b.primerCaso)
  (rutasAux T ordenados, ordenados)

/-- The citywide daily total of `calcularVelocidades` for one date. -/
def casosDelDia (casos : List CasoTemporal) (fecha : Int) : Int :=
  ((casos.filter (fun c => c.fecha = fecha)).map (fun c => c.totalCasos)).sum

/-- `calcularVelocidades`: average over the requested window length and the
peak single-day citywide total.  The Go `casosPorDia` map keyed by the
formatted date is the per-distinct-date grouping; summing and maximising
its values is iteration-order independent. -/
def calcularVelocidades (casos : List CasoTemporal) (diasAnalisis : Int) : ℚ × ℚ :=
  if casos = [] then (0, 0)
  else
    let totalCasos : Int := (casos.map (fun c => c.totalCasos)).sum
    let maxCasosDia : Int := (((casos.map (fun c => c.fecha)).dedup.map
      (fun f => casosDelDia casos f)).foldl max 0)
    ((totalCasos : ℚ) / (diasAnalisis : ℚ), (maxCasosDia : ℚ))

/-- `calcularFactorDensidad`. -/
def calcularFactorDensidad (distritos : List DistritoAfectado) : ℚ :=
  if distritos = [] then 0
  else (distritos.map (fun d => (d.densidadHab : ℚ) * d.velocidadLocal / 1000)).sum /
    (distritos.length : ℚ)

/-- The raw (uncapped) probability of `calcularPrediccion`. -/
def probBruta (info : DensidadDistrito) (velocidadPromedio factorDensidad : ℚ) : ℚ :=
  let probabilidadBase := (info.densidad : ℚ) / 10000
  let factorConectividad := (info.conectividad.length : ℚ) / 10
  let factorVelocidad := velocidadPromedio / 10
  (probabilidadBase + factorConectividad + factorVelocidad + factorDensidad / 10) * 100

/-- The capped probability of `calcularPrediccion` (before the two-decimal
rounding applied to the reported field). -/
def probLimitada (info : DensidadDistrito) (velocidadPromedio factorDensidad : ℚ) : ℚ :=
  let p := probBruta info velocidadPromedio factorDensidad
  if 100 < p then 100 else p

/-- `calcularPrediccion`. -/
def calcularPrediccion (distrito : String) (info : DensidadDistrito)
    (velocidadPromedio factorDensidad : ℚ) (casosActuales : Int) (ahora : Int) :
    PrediccionPropagacion :=
  let probabilidad := probLimitada info velocidadPromedio factorDensidad
  let casosPredichos := goInt (velocidadPromedio * probabilidad / 100) +
    (if 0 < casosActuales then casosActuales else 0)
  let nivelRiesgo :=
    if 80 ≤ probabilidad then "CRÍTICO"
    else if 60 ≤ probabilidad then "ALTO"
    else if 40 ≤ probabilidad then "MEDIO"
    else "BAJO"
  { distrito := distrito, fechaPrediccion := ahora + 7, casosPredichos := casosPredichos,
    probabilidad := goRound (probabilidad * 100) / 100, nivelRiesgo := nivelRiesgo }

/-- One iteration of the `generarPredicciones` loop over the registry map:
`none` when the district is skipped (absent from the registry is impossible
for a genuine key; `currentCases ≥ 5` skips it), otherwise its prediction. -/
def prediccionPara (distritos : List DistritoAfectado)
    (velocidadPromedio factorDensidad : ℚ) (ahora : Int) (nombre : String) :
    Option PrediccionPropagacion :=
  match densidadPoblacionalSantaCruz nombre with
  | none => none
  | some info =>
    match distritos.find? (fun d => d.distrito = nombre) with
    | some d =>
      if d.totalCasos < 5
      then some (calcularPrediccion nombre info velocidadPromedio factorDensidad d.totalCasos ahora)
      else none
    | none => some (calcularPrediccion nombre info velocidadPromedio factorDensidad 0 ahora)

/-- `generarPredicciones`; `ordenRegistro` is the Go map iteration order over
`densidadPoblacionalSantaCruz` (a permutation of `clavesRegistro`). -/
def generarPredicciones (distritos : List DistritoAfectado)
    (velocidadPromedio factorDensidad : ℚ) (ahora : Int) (ordenRegistro : List String) :
    List PrediccionPropagacion :=
  let predicciones := ordenRegistro.filterMap
    (prediccionPara distritos velocidadPromedio factorDensidad ahora)
  predicciones.insertionSort (fun a b => b.probabilidad ≤ a.probabilidad)

/-- `generarRecomendaciones`. -/
def generarRecomendaciones (distritos : List DistritoAfectado)
    (velocidadPromedio factorDensidad : ℚ) : List String :=
  (if 5 < velocidadPromedio then
    ["⚠️ ALERTA: Velocidad de propagación alta (>5 casos/día). Implementar medidas de contención inmediatas."]
   else []) ++
  (if 10 < factorDensidad then
    ["🏙️ Enfocar esfuerzos en distritos de alta densidad poblacional como Plan Tres Mil y Norte."]
   else []) ++
  distritos.filterMap (fun d =>
    if d.riesgoExpansion = "CRÍTICO"
    then some ("🚨 " ++ d.distrito ++ ": Riesgo crítico - Establecer cerco epidemiológico y aumentar vigilancia.")
    else none) ++
  ["📍 Intensificar vigilancia epidemiológica en distritos conectados a focos activos.",
   "🏥 Redistribuir recursos médicos según patrones de propagación identificados.",
   "📊 Actualizar análisis cada 48-72 horas para ajustar estrategias de contención."]

/-- The "no data" error message of `AnalyzeSpreadVelocity`. -/
def mensajeSinDatos (enfermedad : String) : String :=
  "no se encontraron casos para la enfermedad " ++ enfermedad ++ " en el período especificado"

/-- `AnalyzeSpreadVelocity` (the core service operation).  `ahora` is the
injected `time.Now()` in days; `ordenDistritos` / `ordenRegistro` are the Go
map iteration orders of the affected-district map and of the registry. -/
def analyzeSpreadVelocity (T : OpsTrig) (registros : List RegistroClinico)
    (enfermedad : String) (diasAnalisis : Int) (ahora : Int)
    (ordenDistritos ordenRegistro : List String) : Except String VelocidadPropagacion :=
  let fechaFin := ahora
  let fechaInicio := ahora - diasAnalisis
  let casosTemporales := obtenerCasosTemporales registros enfermedad fechaInicio fechaFin
  if casosTemporales = [] then
    Except.error (mensajeSinDatos enfermedad)
  else
    let distritosAfectados := analizarDistritosAfectados casosTemporales ordenDistritos
    let rutasYOrden := calcularRutasPropagacion T distritosAfectados
    let rutasPropagacion := rutasYOrden.1
    let distritosOrdenados := rutasYOrden.2
    let velocidades := calcularVelocidades casosTemporales diasAnalisis
    let velocidadPromedio := velocidades.1
    let velocidadMaxima := velocidades.2
    let factorDensidad := calcularFactorDensidad distritosOrdenados
    let predicciones := generarPredicciones distritosOrdenados velocidadPromedio factorDensidad ahora ordenRegistro
    let recomendaciones := generarRecomendaciones distritosOrdenados velocidadPromedio factorDensidad
    Except.ok
      { enfermedad := enfermedad,
        periodoAnalisis := { fechaInicio := fechaInicio, fechaFin := fechaFin, diasTotales := diasAnalisis },
        velocidadPromedio := velocidadPromedio,
        velocidadMaxima := velocidadMaxima,
        distritosAfectados := distritosOrdenados,
        rutasPropagacion := rutasPropagacion,
        factorDensidad := factorDensidad,
        predictedSpread := predicciones,
        recomendacionesAlert := recomendaciones }

/-- Shape of an HTTP handler outcome (`utils.ErrorResponse` vs
`utils.SuccessResponse`). -/
inductive RespuestaHTTP where
  | fallo (status : Int) (codigo : String)
  | exito (cuerpo : VelocidadPropagacion)
deriving DecidableEq

/-- The `AnalyzeSpreadVelocity` HTTP handler (handlers/propagacion_handler.go):
`diasParam` is the result of `strconv.Atoi` on the `dias` query parameter
(`none` models a parse failure; the parameter defaults to `"30"`). -/
def handlerAnalyzeSpreadVelocity (T : OpsTrig) (registros : List RegistroClinico)
    (enfermedad : String) (diasParam : Option Int) (ahora : Int)
    (ordenDistritos ordenRegistro : List String) : RespuestaHTTP :=
  if enfermedad = "" then RespuestaHTTP.fallo 400 "MISSING_PARAMETER"
  else
    match diasParam with
    | none => RespuestaHTTP.fallo 400 "INVALID_PARAMETER"
    | some dias =>
      if dias < 7 ∨ 365 < dias then RespuestaHTTP.fallo 400 "INVALID_PARAMETER"
      else
        match analyzeSpreadVelocity T registros enfermedad dias ahora ordenDistritos ordenRegistro with
        | Except.error _ => RespuestaHTTP.fallo 500 "ANALYSIS_ERROR"
        | Except.ok v => RespuestaHTTP.exito v

/-- Current case count of a district, following the lookup performed by
`generarPredicciones`: the `totalCases` of its entry among the affected
districts, `0` when it is unaffected. -/
def casosActualesDe (distritos : List DistritoAfectado) (nombre : String) : Int :=
  ((distritos.find? (fun d => d.distrito = nombre)).map (fun d => d.totalCasos)).getD 0

instance (casos : List CasoTemporal) (orden : List String) :
    Decidable (ordenDistritosValido casos orden) :=
  List.decidablePerm _ _

instance : DecidableEq (Except String VelocidadPropagacion) := fun a b =>
  match a, b with
  | Except.error e1, Except.error e2 =>
    if h : e1 = e2 then isTrue (by rw [h]) else isFalse (by intro hc; cases hc; exact h rfl)
  | Except.ok v1, Except.ok v2 =>
    if h : v1 = v2 then isTrue (by rw [h]) else isFalse (by intro hc; cases hc; exact h rfl)
  | Except.error _, Except.ok _ => isFalse (by intro hc; cases hc)
  | Except.ok _, Except.error _ => isFalse (by intro hc; cases hc)

/-! ### Basic lemmas about the aggregation step -/

theorem obtenerCasosTemporales_eq_nil_iff (registros : List RegistroClinico)
    (enfermedad : String) (fechaInicio fechaFin : Int) :
    obtenerCasosTemporales registros enfermedad fechaInicio fechaFin = [] ↔
    registros.filter (filtroCasos enfermedad fechaInicio fechaFin) = [] := by
  unfold obtenerCasosTemporales
  simp only [List.map_eq_nil_iff]
  constructor
  · intro h
    have hperm := List.perm_insertionSort
      (fun a b => a.1 < b.1 ∨ (a.1 = b.1 ∧ a.2 ≤ b.2))
      ((registros.filter (filtroCasos enfermedad fechaInicio fechaFin)).map
        (fun r => (r.fechaConsulta, r.distrito))).dedup
    rw [h] at hperm
    have hdedup := hperm.symm.eq_nil
    have hmap : ((registros.filter (filtroCasos enfermedad fechaInicio fechaFin)).map
        (fun r => (r.fechaConsulta, r.distrito))) = [] := by
      rcases hm : (registros.filter (filtroCasos enfermedad fechaInicio fechaFin)).map
          (fun r => (r.fechaConsulta, r.distrito)) with _ | ⟨x, xs⟩
      · exact hm
      · exfalso
        have : x ∈ ((registros.filter (filtroCasos enfermedad fechaInicio fechaFin)).map
            (fun r => (r.fechaConsulta, r.distrito))).dedup := by
          rw [List.mem_dedup, hm]; exact List.mem_cons_self x xs
        rw [hdedup] at this
        exact absurd this (List.not_mem_nil x)
    exact List.map_eq_nil_iff.mp hmap
  · intro h
    rw [h]
    simp

/-! ### C7: the no-data error -/

/-- C7: `AnalyzeSpreadVelocity` fails with the "no data" error exactly when
the case set filtered by disease name and analysis window is empty; in that
case the result is the bare error (no partial result). -/
theorem analyzeSpreadVelocity_error_iff_sin_casos (T : OpsTrig)
    (registros : List RegistroClinico) (enfermedad : String) (diasAnalisis ahora : Int)
    (ordenDistritos ordenRegistro : List String) :
    analyzeSpreadVelocity T registros enfermedad diasAnalisis ahora ordenDistritos ordenRegistro =
      Except.error (mensajeSinDatos enfermedad) ↔
    registros.filter (filtroCasos enfermedad (ahora - diasAnalisis) ahora) = [] := by
  rw [← obtenerCasosTemporales_eq_nil_iff registros enfermedad (ahora - diasAnalisis) ahora]
  unfold analyzeSpreadVelocity
  by_cases h : obtenerCasosTemporales registros enfermedad (ahora - diasAnalisis) ahora = []
  · simp [h]
  · simp [h]

/-! ### C4 and C10: prediction membership invariants -/

theorem mem_generarPredicciones (distritos : List DistritoAfectado)
    (velocidadPromedio factorDensidad : ℚ) (ahora : Int) (ordenRegistro : List String)
    (p : PrediccionPropagacion)
    (hp : p ∈ generarPredicciones distritos velocidadPromedio factorDensidad ahora ordenRegistro) :
    ∃ nombre ∈ ordenRegistro, ∃ info, densidadPoblacionalSantaCruz nombre = some info ∧
      casosActualesDe distritos nombre < 5 ∧
      p = calcularPrediccion nombre info velocidadPromedio factorDensidad
            (casosActualesDe distritos nombre) ahora := by
  unfold generarPredicciones at hp
  have hp2 := (List.perm_insertionSort _ _).mem_iff.mp hp
  obtain ⟨nombre, hmem, hF⟩ := List.mem_filterMap.mp hp2
  refine ⟨nombre, hmem, ?_⟩
  unfold prediccionPara at hF
  revert hF
  cases hreg : densidadPoblacionalSantaCruz nombre with
  | none => intro hF; exact absurd hF (by simp)
  | some info =>
    cases hfind : distritos.find? (fun d => d.distrito = nombre) with
    | none =>
      intro hF
      simp only [Option.some.injEq] at hF
      exact ⟨info, rfl, by simp [casosActualesDe, hfind], by simp [casosActualesDe, hfind, ← hF]⟩
    | some d =>
      by_cases hlt : d.totalCasos < 5
      · intro hF
        simp only [if_pos hlt, Option.some.injEq] at hF
        exact ⟨info, rfl, by simpa [casosActualesDe, hfind] using hlt,
          by simp [casosActualesDe, hfind, ← hF]⟩
      · intro hF
        simp only [if_neg hlt] at hF
        exact absurd hF (by simp)

/-- C4: `generarPredicciones` never emits a prediction for a district whose
current case count (its `totalCases` among the affected districts, `0` when
unaffected) is `≥ 5`. -/
theorem generarPredicciones_excluye_distritos_con_casos (distritos : List DistritoAfectado)
    (velocidadPromedio factorDensidad : ℚ) (ahora : Int) (ordenRegistro : List String) :
    ∀ p ∈ generarPredicciones distritos velocidadPromedio factorDensidad ahora ordenRegistro,
      casosActualesDe distritos p.distrito < 5 := by
  intro p hp
  obtain ⟨nombre, _, info, _, hlt, hpred⟩ :=
    mem_generarPredicciones distritos velocidadPromedio factorDensidad ahora ordenRegistro p hp
  have hnombre : p.distrito = nombre := by rw [hpred]; rfl
  rw [hnombre]
  exact hlt

/-- C10: every prediction emitted by `generarPredicciones` is for a key of
the district registry; a district present only in case data but absent from
`densidadPoblacionalSantaCruz` never receives a prediction. -/
theorem generarPredicciones_solo_distritos_del_registro (distritos : List DistritoAfectado)
    (velocidadPromedio factorDensidad : ℚ) (ahora : Int) (ordenRegistro : List String) :
    ∀ p ∈ generarPredicciones distritos velocidadPromedio factorDensidad ahora ordenRegistro,
      (densidadPoblacionalSantaCruz p.distrito).isSome = true := by
  intro p hp
  obtain ⟨nombre, _, info, hreg, _, hpred⟩ :=
    mem_generarPredicciones distritos velocidadPromedio factorDensidad ahora ordenRegistro p hp
  have hnombre : p.distrito = nombre := by rw [hpred]; rfl
  rw [hnombre, hreg]
  rfl

/-! ### C2: route validity -/

theorem mem_rutasAux {T : OpsTrig} {S : List DistritoAfectado} {r : RutaPropagacion}
    (hr : r ∈ rutasAux T S) :
    ∃ o ∈ S, ∃ b ∈ S, ∃ info, densidadPoblacionalSantaCruz o.distrito = some info ∧
      b.distrito ∈ info.conectividad ∧ 0 < b.primerCaso - o.primerCaso ∧
      b.primerCaso - o.primerCaso ≤ 14 ∧ r = rutaDe T o b := by
  induction S with
  | nil => simp [rutasAux] at hr
  | cons origen resto ih =>
    rw [rutasAux] at hr
    rcases List.mem_append.mp hr with h1 | h2
    · unfold rutasDesde at h1
      cases hreg : densidadPoblacionalSantaCruz origen.distrito with
      | none => rw [hreg] at h1; simp at h1
      | some info =>
        rw [hreg] at h1
        obtain ⟨c, hc, hmem2⟩ := List.mem_flatMap.mp h1
        unfold destinosConectados at hmem2
        obtain ⟨destino, hdest, hsome⟩ := List.mem_filterMap.mp hmem2
        by_cases hcond : destino.distrito = c ∧ 0 < destino.primerCaso - origen.primerCaso ∧
          destino.primerCaso - origen.primerCaso ≤ 14
        · rw [if_pos hcond] at hsome
          obtain ⟨hdc, hpos, hle⟩ := hcond
          exact ⟨origen, List.mem_cons_self _ _, destino, List.mem_cons_of_mem _ hdest, info,
            hreg, by rw [hdc]; exact hc, hpos, hle, (Option.some.inj hsome).symm⟩
        · rw [if_neg hcond] at hsome
          exact absurd hsome (by simp)
    · obtain ⟨o, ho, b, hb, resto2⟩ := ih h2
      exact ⟨o, List.mem_cons_of_mem _ ho, b, List.mem_cons_of_mem _ hb, resto2⟩

/-- C2: every emitted propagation edge has `0 < transitionDays ≤ 14`, its
destination is in the registry adjacency list of its origin, and the origin's
first-case date is strictly earlier than the destination's; consequently (for
a district list without duplicated names) two affected districts with the same
first-case date never get an edge between them. -/
theorem calcularRutasPropagacion_validas (T : OpsTrig) (distritos : List DistritoAfectado)
    (hnombres : (distritos.map (fun d => d.distrito)).Nodup) :
    (∀ r ∈ (calcularRutasPropagacion T distritos).1,
       0 < r.diasTransicion ∧ r.diasTransicion ≤ 14 ∧
       (∃ info, densidadPoblacionalSantaCruz r.distritoOrigen = some info ∧
          r.distritoDestino ∈ info.conectividad) ∧
       (∃ a ∈ distritos, ∃ b ∈ distritos,
          a.distrito = r.distritoOrigen ∧ b.distrito = r.distritoDestino ∧
          a.primerCaso < b.primerCaso)) ∧
    (∀ a ∈ distritos, ∀ b ∈ distritos, a.primerCaso = b.primerCaso →
       ∀ r ∈ (calcularRutasPropagacion T distritos).1,
         ¬(r.distritoOrigen = a.distrito ∧ r.distritoDestino = b.distrito)) := by
  have hperm : (distritos.insertionSort (fun a b => a.primerCaso ≤ b.primerCaso)).Perm
      distritos := List.perm_insertionSort _ _
  have parte1 : ∀ r ∈ (calcularRutasPropagacion T distritos).1,
      0 < r.diasTransicion ∧ r.diasTransicion ≤ 14 ∧
      (∃ info, densidadPoblacionalSantaCruz r.distritoOrigen = some info ∧
         r.distritoDestino ∈ info.conectividad) ∧
      (∃ a ∈ distritos, ∃ b ∈ distritos,
         a.distrito = r.distritoOrigen ∧ b.distrito = r.distritoDestino ∧
         a.primerCaso < b.primerCaso) := by
    intro r hr
    obtain ⟨o, ho, b, hb, info, hreg, hcon, hpos, hle, hruta⟩ := mem_rutasAux hr
    have ho2 : o ∈ distritos := hperm.mem_iff.mp ho
    have hb2 : b ∈ distritos := hperm.mem_iff.mp hb
    have hOrigen : r.distritoOrigen = o.distrito := by rw [hruta]; rfl
    have hDestino : r.distritoDestino = b.distrito := by rw [hruta]; rfl
    have hDias : r.diasTransicion = b.primerCaso - o.primerCaso := by rw [hruta]; rfl
    refine ⟨by rw [hDias]; exact hpos, by rw [hDias]; exact hle,
      ⟨info, by rw [hOrigen]; exact hreg, by rw [hDestino]; exact hcon⟩,
      ⟨o, ho2, b, hb2, hOrigen.symm, hDestino.symm, by linarith⟩⟩
  refine ⟨parte1, ?_⟩
  intro a ha b hb hfechas r hr ⟨hra, hrb⟩
  obtain ⟨_, _, _, a2, ha2, b2, hb2, ha2d, hb2d, hlt⟩ := parte1 r hr
  have haa : a2 = a := List.inj_on_of_nodup_map hnombres ha2 ha (by rw [ha2d, hra])
  have hbb : b2 = b := List.inj_on_of_nodup_map hnombres hb2 hb (by rw [hb2d, hrb])
  rw [haa, hbb, hfechas] at hlt
  exact lt_irrefl _ hlt

/-- Concrete affected-district pair used as the C2 witness input: Norte
(first case day 0) and its adjacent district Equipetrol (first case day 3). -/
def distritosTestigoC2 : List DistritoAfectado :=
  [{ distrito := "Norte", primerCaso := 0, ultimoCaso := 0, totalCasos := 3,
     densidadHab := 6986, velocidadLocal := 3, riesgoExpansion := "MEDIO" },
   { distrito := "Equipetrol", primerCaso := 3, ultimoCaso := 3, totalCasos := 2,
     densidadHab := 6800, velocidadLocal := 2, riesgoExpansion := "MEDIO" }]

/-- The single edge emitted for `distritosTestigoC2` (distances are 0 under
the trivial trig bundle). -/
def rutaTestigoC2 : RutaPropagacion :=
  { distritoOrigen := "Norte", distritoDestino := "Equipetrol", fechaPropagacion := 3,
    diasTransicion := 3, distanciaKm := 0, velocidadKmDia := 0 }

/-- Witness for C2 at a concrete input. -/
theorem calcularRutasPropagacion_validas_witness :
    (distritosTestigoC2.map (fun d => d.distrito)).Nodup ∧
    (calcularRutasPropagacion opsTrigCero distritosTestigoC2).1 = [rutaTestigoC2] ∧
    0 < rutaTestigoC2.diasTransicion ∧ rutaTestigoC2.diasTransicion ≤ 14 := by
  have hlista : (calcularRutasPropagacion opsTrigCero distritosTestigoC2).1 = [rutaTestigoC2] := by
    with_unfolding_all decide
  refine ⟨by decide, hlista, ?_⟩
  have h := (calcularRutasPropagacion_validas opsTrigCero distritosTestigoC2 (by decide)).1
    rutaTestigoC2 (by rw [hlista]; exact List.mem_singleton_self _)
  exact ⟨h.1, h.2.1⟩

/-! ### Invariants of the district grouping map -/

/-- Invariant of every entry of `distritoMap`: the value's district name is
the key, its density is the registry lookup (0 when absent), and its local
velocity is still the initial 0 (the finishing loop computes it later). -/
def invariantePar (kd : String × DistritoAfectado) : Prop :=
  kd.2.distrito = kd.1 ∧ kd.2.densidadHab = densidadRegistrada kd.1 ∧
  kd.2.velocidadLocal = 0

theorem find?_clave_isSome (m : List (String × DistritoAfectado)) (k : String) :
    ((m.find? (fun kd => kd.1 = k)).isSome = true) ↔ k ∈ m.map Prod.fst := by
  rw [List.find?_isSome]
  constructor
  · rintro ⟨kd, hkd, hp⟩
    exact List.mem_map.mpr ⟨kd, hkd, of_decide_eq_true hp⟩
  · intro hmem
    obtain ⟨kd, hkd, hfst⟩ := List.mem_map.mp hmem
    exact ⟨kd, hkd, decide_eq_true hfst⟩

theorem pasoMapa_claves_encontrado (m : List (String × DistritoAfectado)) (caso : CasoTemporal)
    (h : (m.find? (fun kd => kd.1 = caso.distrito)).isSome = true) :
    (pasoMapaDistritos m caso).map Prod.fst = m.map Prod.fst := by
  unfold pasoMapaDistritos
  rw [if_pos h, List.map_map]
  apply List.map_congr_left
  intro kd _
  by_cases hk : kd.1 = caso.distrito
  · simp [hk]
  · simp [hk]

theorem pasoMapa_claves_nuevo (m : List (String × DistritoAfectado)) (caso : CasoTemporal)
    (h : ¬ (m.find? (fun kd => kd.1 = caso.distrito)).isSome = true) :
    (pasoMapaDistritos m caso).map Prod.fst = m.map Prod.fst ++ [caso.distrito] := by
  unfold pasoMapaDistritos
  rw [if_neg h]
  simp

theorem mem_claves_foldl (casos : List CasoTemporal) (m0 : List (String × DistritoAfectado))
    (k : String) :
    (k ∈ (casos.foldl pasoMapaDistritos m0).map Prod.fst) ↔
    (k ∈ m0.map Prod.fst ∨ k ∈ casos.map (fun c => c.distrito)) := by
  induction casos generalizing m0 with
  | nil => simp
  | cons c cs ih =>
    rw [List.foldl_cons, ih]
    by_cases h : (m0.find? (fun kd => kd.1 = c.distrito)).isSome = true
    · rw [pasoMapa_claves_encontrado m0 c h]
      simp only [List.map_cons, List.mem_cons]
      constructor
      · rintro (hk | hk)
        · exact Or.inl hk
        · exact Or.inr (Or.inr hk)
      · rintro (hk | hk | hk)
        · exact Or.inl hk
        · subst hk
          exact Or.inl ((find?_clave_isSome m0 c.distrito).mp h)
        · exact Or.inr hk
    · rw [pasoMapa_claves_nuevo m0 c h]
      simp only [List.map_cons, List.mem_cons, List.mem_append, List.mem_singleton]
      tauto

theorem mem_claves_construirMapa (casos : List CasoTemporal) (k : String) :
    (k ∈ (construirMapaDistritos casos).map Prod.fst) ↔
    k ∈ casos.map (fun c => c.distrito) := by
  unfold construirMapaDistritos
  rw [mem_claves_foldl]
  simp

theorem invariante_pasoMapa (m : List (String × DistritoAfectado)) (caso : CasoTemporal)
    (h : ∀ kd ∈ m, invariantePar kd) :
    ∀ kd ∈ pasoMapaDistritos m caso, invariantePar kd := by
  intro kd hkd
  unfold pasoMapaDistritos at hkd
  split at hkd
  · obtain ⟨kd0, hkd0, heq⟩ := List.mem_map.mp hkd
    have hinv := h kd0 hkd0
    by_cases hk : kd0.1 = caso.distrito
    · rw [if_pos hk] at heq
      cases heq
      exact ⟨hinv.1, hinv.2.1, hinv.2.2⟩
    · rw [if_neg hk] at heq
      cases heq
      exact hinv
  · rcases List.mem_append.mp hkd with h1 | h2
    · exact h kd h1
    · have heq : kd = (caso.distrito, nuevoDistrito caso) := by simpa using h2
      cases heq
      exact ⟨rfl, rfl, rfl⟩

theorem invariante_foldl (casos : List CasoTemporal) (m0 : List (String × DistritoAfectado))
    (h : ∀ kd ∈ m0, invariantePar kd) :
    ∀ kd ∈ casos.foldl pasoMapaDistritos m0, invariantePar kd := by
  induction casos generalizing m0 with
  | nil => exact h
  | cons c cs ih => exact ih _ (invariante_pasoMapa m0 c h)

theorem invariante_construirMapa (casos : List CasoTemporal) :
    ∀ kd ∈ construirMapaDistritos casos, invariantePar kd :=
  invariante_foldl casos [] (by simp)

theorem claves_nodup_foldl (casos : List CasoTemporal) (m0 : List (String × DistritoAfectado))
    (h : (m0.map Prod.fst).Nodup) :
    ((casos.foldl pasoMapaDistritos m0).map Prod.fst).Nodup := by
  induction casos generalizing m0 with
  | nil => exact h
  | cons c cs ih =>
    rw [List.foldl_cons]
    apply ih
    by_cases hf : (m0.find? (fun kd => kd.1 = c.distrito)).isSome = true
    · rw [pasoMapa_claves_encontrado m0 c hf]
      exact h
    · rw [pasoMapa_claves_nuevo m0 c hf]
      rw [List.nodup_append]
      refine ⟨h, List.nodup_singleton _, ?_⟩
      intro a ha hb
      rw [List.mem_singleton] at hb
      subst hb
      exact hf ((find?_clave_isSome m0 c.distrito).mpr ha)

theorem claves_nodup_construirMapa (casos : List CasoTemporal) :
    ((construirMapaDistritos casos).map Prod.fst).Nodup :=
  claves_nodup_foldl casos [] (by simp)

/-! ### Properties of `finalizarDistrito` -/

theorem finalizarDistrito_distrito (d : DistritoAfectado) :
    (finalizarDistrito d).distrito = d.distrito := by
  unfold finalizarDistrito
  by_cases h : (0 : Int) < d.ultimoCaso - d.primerCaso + 1
  · simp only [if_pos h]
  · simp only [if_neg h]

theorem finalizarDistrito_densidadHab (d : DistritoAfectado) :
    (finalizarDistrito d).densidadHab = d.densidadHab := by
  unfold finalizarDistrito
  by_cases h : (0 : Int) < d.ultimoCaso - d.primerCaso + 1
  · simp only [if_pos h]
  · simp only [if_neg h]

theorem finalizarDistrito_riesgo (d : DistritoAfectado) :
    (finalizarDistrito d).riesgoExpansion =
    calcularRiesgoExpansion (finalizarDistrito d).densidadHab
      (finalizarDistrito d).velocidadLocal := by
  unfold finalizarDistrito
  by_cases h : (0 : Int) < d.ultimoCaso - d.primerCaso + 1
  · simp only [if_pos h]
  · simp only [if_neg h]

/-! ### C9: tolerance of districts missing from the registry -/

/-- C9: a district named in case data but absent from the registry still
yields an `AffectedDistrict`, with density 0 and a risk tier computed from
the score `density/1000 + localVelocity*2` at density 0 (hence from the
local velocity alone). -/
theorem analizar_tolera_distrito_desconocido (casos : List CasoTemporal) (orden : List String)
    (hord : ordenDistritosValido casos orden) (Z : String)
    (hreg : densidadPoblacionalSantaCruz Z = none)
    (hmem : Z ∈ casos.map (fun c => c.distrito)) :
    ∃ d ∈ analizarDistritosAfectados casos orden,
      d.distrito = Z ∧ d.densidadHab = 0 ∧
      d.riesgoExpansion = calcularRiesgoExpansion 0 d.velocidadLocal := by
  have hkey : Z ∈ (construirMapaDistritos casos).map Prod.fst :=
    (mem_claves_construirMapa casos Z).mpr hmem
  have hZorden : Z ∈ orden := hord.mem_iff.mpr hkey
  have hfind : (((construirMapaDistritos casos).find? (fun kd => kd.1 = Z)).isSome = true) :=
    (find?_clave_isSome _ Z).mpr hkey
  obtain ⟨kd, hkd⟩ := Option.isSome_iff_exists.mp hfind
  have hkdm : kd ∈ construirMapaDistritos casos := List.mem_of_find?_eq_some hkd
  have hkfst : kd.1 = Z := by
    have h2 := List.find?_some hkd
    exact of_decide_eq_true h2
  have hinv := invariante_construirMapa casos kd hkdm
  have hdens : (finalizarDistrito kd.2).densidadHab = 0 := by
    rw [finalizarDistrito_densidadHab, hinv.2.1, hkfst]
    unfold densidadRegistrada
    rw [hreg]
  refine ⟨finalizarDistrito kd.2, ?_, ?_, hdens, ?_⟩
  · unfold analizarDistritosAfectados
    apply (List.perm_insertionSort _ _).mem_iff.mpr
    apply List.mem_filterMap.mpr
    exact ⟨Z, hZorden, by rw [hkd]; rfl⟩
  · rw [finalizarDistrito_distrito, hinv.1, hkfst]
  · rw [finalizarDistrito_riesgo, hdens]

/-- Concrete aggregate list used as the C9 witness input: a single aggregate
for the unregistered district "Zentro". -/
def casosTestigoC9 : List CasoTemporal :=
  [{ fecha := 0, distrito := "Zentro", totalCasos := 2, casosContagiosos := 0,
     coordenadas := { latitud := 0, longitud := 0 } }]

/-- Witness for C9: case data naming the unregistered district "Zentro". -/
theorem analizar_tolera_distrito_desconocido_witness :
    densidadPoblacionalSantaCruz "Zentro" = none ∧
    ((analizarDistritosAfectados casosTestigoC9 ["Zentro"]).any (fun d =>
      decide (d.distrito = "Zentro" ∧ d.densidadHab = 0 ∧
        d.riesgoExpansion = calcularRiesgoExpansion 0 d.velocidadLocal))) = true := by
  refine ⟨by decide, ?_⟩
  obtain ⟨d, hd, h1, h2, h3⟩ := analizar_tolera_distrito_desconocido casosTestigoC9 ["Zentro"]
    (by decide) "Zentro" (by decide) (by decide)
  exact List.any_eq_true.mpr ⟨d, hd, decide_eq_true ⟨h1, h2, h3⟩⟩

/-! ### C8: window validation -/

/-- Truth value of "the analysis call failed". -/
def esError (r : Except String VelocidadPropagacion) : Bool :=
  match r with
  | Except.error _ => true
  | Except.ok _ => false

/-- Concrete clinical record used by the C8 counterexample. -/
def registroTestigoC8 : RegistroClinico :=
  { enfermedad := "dengue", fechaConsulta := 0, distrito := "A",
    esContagioso := false, latitud := 0, longitud := 0 }

/-- C8 counterexample: for the out-of-range window `analysisWindowDays = 5`
(below the documented minimum of 7) and a non-empty case set, the core
`AnalyzeSpreadVelocity` does not reject the request: it returns a normal
output value instead of an error. -/
theorem analyzeSpreadVelocity_no_valida_ventana :
    esError (analyzeSpreadVelocity opsTrigCero [registroTestigoC8] "dengue" 5 0 ["A"]
      clavesRegistro) = false := by
  with_unfolding_all decide

/-- C8 (amended): the `[7, 365]` window validation lives in the HTTP
handler, not in the core: the handler rejects any out-of-range `dias` with
a 400 `INVALID_PARAMETER` response and never invokes the core for it. -/
theorem handler_rechaza_ventana_invalida (T : OpsTrig) (registros : List RegistroClinico)
    (enfermedad : String) (dias ahora : Int) (ordenDistritos ordenRegistro : List String)
    (h : dias < 7 ∨ 365 < dias) :
    (∀ v, handlerAnalyzeSpreadVelocity T registros enfermedad (some dias) ahora
        ordenDistritos ordenRegistro ≠ RespuestaHTTP.exito v) ∧
    (enfermedad ≠ "" → handlerAnalyzeSpreadVelocity T registros enfermedad (some dias) ahora
        ordenDistritos ordenRegistro = RespuestaHTTP.fallo 400 "INVALID_PARAMETER") := by
  unfold handlerAnalyzeSpreadVelocity
  by_cases he : enfermedad = ""
  · rw [if_pos he]
    exact ⟨fun v hc => (by cases hc), fun hne => absurd he hne⟩
  · rw [if_neg he]
    constructor
    · intro v
      show (if dias < 7 ∨ 365 < dias then _ else _) ≠ _
      rw [if_pos h]
      intro hc
      cases hc
    · intro _
      show (if dias < 7 ∨ 365 < dias then _ else _) = _
      rw [if_pos h]

/-- Witness for C8 (amended) at the concrete out-of-range window 400. -/
theorem handler_rechaza_ventana_invalida_witness :
    (365 : Int) < 400 ∧
    handlerAnalyzeSpreadVelocity opsTrigCero [registroTestigoC8] "dengue" (some 400) 0 ["A"]
      clavesRegistro = RespuestaHTTP.fallo 400 "INVALID_PARAMETER" :=
  ⟨by decide,
   (handler_rechaza_ventana_invalida opsTrigCero [registroTestigoC8] "dengue" 400 0 ["A"]
     clavesRegistro (Or.inr (by decide))).2 (by decide)⟩

/-! ### Bounds on the prediction probability -/

theorem registro_densidad_nonneg (k : String) (info : DensidadDistrito)
    (h : densidadPoblacionalSantaCruz k = some info) : 0 ≤ info.densidad := by
  unfold densidadPoblacionalSantaCruz at h
  split_ifs at h <;> simp only [Option.some.injEq] at h <;> rw [← h] <;> decide

theorem probLimitada_cotas (info : DensidadDistrito) (v f : ℚ)
    (hv : 0 ≤ v) (hf : 0 ≤ f) (hd : 0 ≤ info.densidad) :
    0 ≤ probLimitada info v f ∧ probLimitada info v f ≤ 100 := by
  have hlen : (0 : ℚ) ≤ (info.conectividad.length : ℚ) := by positivity
  have hdq : (0 : ℚ) ≤ (info.densidad : ℚ) := by exact_mod_cast hd
  have hbruta : 0 ≤ probBruta info v f := by
    unfold probBruta
    have h1 : (0:ℚ) ≤ (info.densidad : ℚ) / 10000 := by positivity
    have h2 : (0:ℚ) ≤ (info.conectividad.length : ℚ) / 10 := by positivity
    have h3 : (0:ℚ) ≤ v / 10 := by positivity
    have h4 : (0:ℚ) ≤ f / 10 := by positivity
    nlinarith
  unfold probLimitada
  by_cases h : 100 < probBruta info v f
  · rw [if_pos h]
    norm_num
  · rw [if_neg h]
    exact ⟨hbruta, le_of_not_lt h⟩

theorem casosActualesDe_nonneg (distritos : List DistritoAfectado) (nombre : String)
    (hnn : ∀ d ∈ distritos, 0 ≤ d.totalCasos) : 0 ≤ casosActualesDe distritos nombre := by
  unfold casosActualesDe
  cases hfind : distritos.find? (fun d => d.distrito = nombre) with
  | none => exact le_refl 0
  | some d => exact hnn d (List.mem_of_find?_eq_some hfind)

/-! ### C5: the predicted-cases formula -/

/-- C5 (amended): for every emitted prediction,
`predictedCases = floor(averageVelocity * p / 100) + currentCases` where `p`
is the capped probability BEFORE the two-decimal rounding (the reported
`probabilityPercent` is `p` rounded); the code computes the floor from the
unrounded value, not from the reported one. -/
theorem generarPredicciones_casos_predichos (distritos : List DistritoAfectado)
    (v f : ℚ) (ahora : Int) (ordenRegistro : List String)
    (hv : 0 ≤ v) (hf : 0 ≤ f) (hnn : ∀ d ∈ distritos, 0 ≤ d.totalCasos) :
    ∀ p ∈ generarPredicciones distritos v f ahora ordenRegistro,
      ∃ info, densidadPoblacionalSantaCruz p.distrito = some info ∧
        p.casosPredichos =
          ⌊v * probLimitada info v f / 100⌋ + casosActualesDe distritos p.distrito ∧
        p.probabilidad = goRound (probLimitada info v f * 100) / 100 := by
  intro p hp
  obtain ⟨nombre, _, info, hreg, _, hpred⟩ :=
    mem_generarPredicciones distritos v f ahora ordenRegistro p hp
  have hdistrito : p.distrito = nombre := by rw [hpred]; rfl
  have hdq : 0 ≤ info.densidad := registro_densidad_nonneg nombre info hreg
  have hprob := probLimitada_cotas info v f hv hf hdq
  have hx : 0 ≤ v * probLimitada info v f / 100 := by
    have := mul_nonneg hv hprob.1
    positivity
  have hca : 0 ≤ casosActualesDe distritos nombre := casosActualesDe_nonneg distritos nombre hnn
  refine ⟨info, by rw [hdistrito]; exact hreg, ?_, ?_⟩
  · rw [hpred]
    rw [show (calcularPrediccion nombre info v f (casosActualesDe distritos nombre)
      ahora).distrito = nombre from rfl]
    show goInt (v * probLimitada info v f / 100) +
      (if 0 < casosActualesDe distritos nombre then casosActualesDe distritos nombre else 0) = _
    rw [goInt, if_pos hx]
    congr 1
    by_cases h0 : 0 < casosActualesDe distritos nombre
    · rw [if_pos h0]
    · rw [if_neg h0]
      omega
  · rw [hpred]
    rfl

/-- Witness input for the C5 amended theorem: no affected districts,
`averageVelocity = 1`, `densityFactor = 0`, registry order restricted to
"Este". -/
def prediccionTestigoC5 : PrediccionPropagacion :=
  { distrito := "Este", fechaPrediccion := 7, casosPredichos := 0,
    probabilidad := 44.25, nivelRiesgo := "MEDIO" }

/-- Witness for C5 (amended) at a concrete input. -/
theorem generarPredicciones_casos_predichos_witness :
    generarPredicciones [] 1 0 0 ["Este"] = [prediccionTestigoC5] ∧
    ((densidadPoblacionalSantaCruz "Este").map (fun info =>
      decide (prediccionTestigoC5.casosPredichos =
        ⌊(1 : ℚ) * probLimitada info 1 0 / 100⌋ +
          casosActualesDe [] prediccionTestigoC5.distrito))) = some true := by
  have hlista : generarPredicciones [] 1 0 0 ["Este"] = [prediccionTestigoC5] := by
    with_unfolding_all decide
  refine ⟨hlista, ?_⟩
  obtain ⟨info, hinfo, h1, _⟩ := generarPredicciones_casos_predichos [] 1 0 0 ["Este"]
    (by norm_num) (by norm_num) (by simp) prediccionTestigoC5
    (by rw [hlista]; exact List.mem_singleton_self _)
  have : densidadPoblacionalSantaCruz prediccionTestigoC5.distrito = some info := hinfo
  rw [show prediccionTestigoC5.distrito = "Este" from rfl] at this
  rw [this]
  exact congrArg some (decide_eq_true h1)

/-- Witness for C4 at a concrete emitted prediction. -/
theorem generarPredicciones_excluye_distritos_con_casos_witness :
    casosActualesDe [] prediccionTestigoC5.distrito < 5 := by
  have hl : generarPredicciones [] 1 0 0 ["Este"] = [prediccionTestigoC5] := by
    with_unfolding_all decide
  exact generarPredicciones_excluye_distritos_con_casos [] 1 0 0 ["Este"]
    prediccionTestigoC5 (by rw [hl]; exact List.mem_singleton_self _)

/-- Witness for C10 at a concrete emitted prediction. -/
theorem generarPredicciones_solo_distritos_del_registro_witness :
    (densidadPoblacionalSantaCruz prediccionTestigoC5.distrito).isSome = true := by
  have hl : generarPredicciones [] 1 0 0 ["Este"] = [prediccionTestigoC5] := by
    with_unfolding_all decide
  exact generarPredicciones_solo_distritos_del_registro [] 1 0 0 ["Este"]
    prediccionTestigoC5 (by rw [hl]; exact List.mem_singleton_self _)

/-- The 89 identical "Zentro" records (one day, one district) used by the
C5 counterexample; the analysis window is 52 days, so the citywide average
velocity is 89/52 and the density factor is 0. -/
def registrosTestigoC5 : List RegistroClinico :=
  List.replicate 89
    { enfermedad := "dengue", fechaConsulta := 0, distrito := "Zentro",
      esContagioso := false, latitud := 0, longitud := 0 }

set_option maxRecDepth 100000 in
/-- C5 counterexample: in the full analysis of `registrosTestigoC5` with a
52-day window, the prediction emitted for "Oeste" has
`predictedCases = 0`, but
`floor(averageVelocity * probabilityPercent / 100) + currentCases = 1`
when `probabilityPercent` is the reported (2-decimal-rounded) probability:
the code floors the UNROUNDED probability (89/52 · 58.425384…/100 < 1),
while the claim's formula uses the rounded 58.43 (89/52 · 58.43/100 > 1). -/
theorem calcularPrediccion_formula_redondeada_falla :
    ((analyzeSpreadVelocity opsTrigCero registrosTestigoC5 "dengue" 52 0 ["Zentro"]
        clavesRegistro).toOption.map (fun res =>
      res.predictedSpread.filterMap (fun p =>
        if p.distrito = "Oeste" then
          some (p.casosPredichos,
            ⌊res.velocidadPromedio * p.probabilidad / 100⌋ +
              casosActualesDe res.distritosAfectados p.distrito)
        else none))) = some [(0, 1)] := by
  with_unfolding_all decide

/-! ### C3: velocity bounds -/

theorem sum_filtrado_particion (p : CasoTemporal → Bool) (l : List CasoTemporal) :
    ((l.filter p).map (fun c => c.totalCasos)).sum +
    ((l.filter (fun c => !(p c))).map (fun c => c.totalCasos)).sum =
    (l.map (fun c => c.totalCasos)).sum := by
  induction l with
  | nil => simp
  | cons c cs ih =>
    by_cases h : p c = true
    · simp only [List.filter_cons, h, Bool.not_true, if_pos, List.map_cons, List.sum_cons,
        if_neg Bool.false_ne_true]

      omega
    · have h2 : p c = false := Bool.eq_false_iff.mpr h
      simp only [List.filter_cons, h2, Bool.not_false, if_pos, List.map_cons, List.sum_cons,
        if_neg Bool.false_ne_true]
      omega

theorem casosDelDia_filtrado (casos : List CasoTemporal) (f f2 : Int) (hne : f2 ≠ f) :
    casosDelDia (casos.filter (fun c => !(decide (c.fecha = f)))) f2 = casosDelDia casos f2 := by
  unfold casosDelDia
  rw [List.filter_filter]
  have hf : List.filter (fun a => decide (a.fecha = f2) && !decide (a.fecha = f)) casos =
      List.filter (fun c => decide (c.fecha = f2)) casos := by
    apply List.filter_congr
    intro c _
    by_cases h : c.fecha = f2
    · simp [h, hne]
    · simp [h]
  rw [hf]

theorem suma_agrupada (fechas : List Int) (casos : List CasoTemporal)
    (hcover : ∀ c ∈ casos, c.fecha ∈ fechas) (hnodup : fechas.Nodup) :
    (casos.map (fun c => c.totalCasos)).sum =
    (fechas.map (fun f => casosDelDia casos f)).sum := by
  induction fechas generalizing casos with
  | nil =>
    cases casos with
    | nil => simp
    | cons c cs => exact absurd (hcover c (List.mem_cons_self c cs)) (List.not_mem_nil _)
  | cons f fs ih =>
    have hsplit := sum_filtrado_particion (fun c => decide (c.fecha = f)) casos
    have hcongr : ∀ f2 ∈ fs, casosDelDia casos f2 =
        casosDelDia (casos.filter (fun c => !(decide (c.fecha = f)))) f2 := by
      intro f2 hf2
      refine (casosDelDia_filtrado casos f f2 ?_).symm
      rintro rfl
      exact (List.nodup_cons.mp hnodup).1 hf2
    have hcover2 : ∀ c ∈ casos.filter (fun c => !(decide (c.fecha = f))), c.fecha ∈ fs := by
      intro c hc
      obtain ⟨hcmem, hcp⟩ := List.mem_filter.mp hc
      have hne : ¬(c.fecha = f) := by simpa using hcp
      rcases List.mem_cons.mp (hcover c hcmem) with h | h
      · exact absurd h hne
      · exact h
    have hB := ih (casos.filter (fun c => !(decide (c.fecha = f)))) hcover2
      (List.nodup_cons.mp hnodup).2
    rw [List.map_cons, List.sum_cons, List.map_congr_left hcongr, ← hB]
    have hdia : casosDelDia casos f =
        ((casos.filter (fun c => decide (c.fecha = f))).map (fun c => c.totalCasos)).sum := rfl
    omega

theorem foldl_max_cotas (l : List Int) : ∀ a : Int,
    a ≤ l.foldl max a ∧ ∀ x ∈ l, x ≤ l.foldl max a := by
  induction l with
  | nil =>
    intro a
    exact ⟨le_refl a, by simp⟩
  | cons b t ih =>
    intro a
    refine ⟨le_trans (le_max_left a b) (ih (max a b)).1, ?_⟩
    intro x hx
    rcases List.mem_cons.mp hx with rfl | hx2
    · exact le_trans (le_max_right a x) (ih (max a x)).1
    · exact (ih (max a b)).2 x hx2

theorem velocidades_cotas_aux (casos : List CasoTemporal) (diasAnalisis : Int)
    (hne : casos ≠ []) (hnn : ∀ c ∈ casos, 0 ≤ c.totalCasos) (hdias : 0 < diasAnalisis) :
    0 ≤ (calcularVelocidades casos diasAnalisis).1 ∧
    0 ≤ (calcularVelocidades casos diasAnalisis).2 ∧
    (((casos.map (fun c => c.fecha)).dedup.length : Int) ≤ diasAnalisis →
      (calcularVelocidades casos diasAnalisis).1 ≤ (calcularVelocidades casos diasAnalisis).2) := by
  unfold calcularVelocidades
  rw [if_neg hne]
  dsimp only
  have htotal : 0 ≤ (casos.map (fun c => c.totalCasos)).sum := by
    apply List.sum_nonneg
    intro x hx
    obtain ⟨c, hc, hcx⟩ := List.mem_map.mp hx
    rw [← hcx]
    exact hnn c hc
  have hmax : 0 ≤ ((casos.map (fun c => c.fecha)).dedup.map
      (fun f => casosDelDia casos f)).foldl max 0 :=
    (foldl_max_cotas _ 0).1
  refine ⟨?_, ?_, ?_⟩
  · exact div_nonneg (by exact_mod_cast htotal) (by exact_mod_cast le_of_lt hdias)
  · exact_mod_cast hmax
  · intro hlen
    have hagr := suma_agrupada (casos.map (fun c => c.fecha)).dedup casos
      (fun c hc => List.mem_dedup.mpr (List.mem_map.mpr ⟨c, hc, rfl⟩))
      (List.nodup_dedup _)
    have hcada : ∀ x ∈ (casos.map (fun c => c.fecha)).dedup.map (fun f => casosDelDia casos f),
        x ≤ ((casos.map (fun c => c.fecha)).dedup.map (fun f => casosDelDia casos f)).foldl max 0 :=
      (foldl_max_cotas _ 0).2
    have hsuma := List.sum_le_card_nsmul
      ((casos.map (fun c => c.fecha)).dedup.map (fun f => casosDelDia casos f))
      (((casos.map (fun c => c.fecha)).dedup.map (fun f => casosDelDia casos f)).foldl max 0)
      hcada
    rw [List.length_map] at hsuma
    rw [nsmul_eq_mul] at hsuma
    have htot2 : (casos.map (fun c => c.totalCasos)).sum ≤
        diasAnalisis * (((casos.map (fun c => c.fecha)).dedup.map
          (fun f => casosDelDia casos f)).foldl max 0) := by
      calc (casos.map (fun c => c.totalCasos)).sum
          = ((casos.map (fun c => c.fecha)).dedup.map (fun f => casosDelDia casos f)).sum :=
            hagr
        _ ≤ ((casos.map (fun c => c.fecha)).dedup.length : Int) *
              (((casos.map (fun c => c.fecha)).dedup.map
                (fun f => casosDelDia casos f)).foldl max 0) := hsuma
        _ ≤ diasAnalisis * _ := mul_le_mul_of_nonneg_right hlen hmax
    rw [div_le_iff₀ (by exact_mod_cast hdias)]
    have hq : (((casos.map (fun c => c.totalCasos)).sum : Int) : ℚ) ≤
        (diasAnalisis : ℚ) * ((((casos.map (fun c => c.fecha)).dedup.map
          (fun f => casosDelDia casos f)).foldl max 0 : Int) : ℚ) := by
      exact_mod_cast htot2
    linarith

/-- C3 (amended): for a non-empty aggregate list both velocities are
non-negative, and `averagePerDay ≤ peakPerDay` holds WHENEVER the number
of distinct case dates does not exceed `analysisWindowDays`.  (The inclusive
window `[now - d, now]` spans `d + 1` calendar dates, so the average can
exceed the peak by a factor of up to `(d+1)/d`; see the counterexample.) -/
theorem calcularVelocidades_cotas (casos : List CasoTemporal) (diasAnalisis : Int)
    (hne : casos ≠ []) (hnn : ∀ c ∈ casos, 0 ≤ c.totalCasos) (hdias : 0 < diasAnalisis) :
    0 ≤ (calcularVelocidades casos diasAnalisis).1 ∧
    0 ≤ (calcularVelocidades casos diasAnalisis).2 ∧
    (((casos.map (fun c => c.fecha)).dedup.length : Int) ≤ diasAnalisis →
      (calcularVelocidades casos diasAnalisis).1 ≤ (calcularVelocidades casos diasAnalisis).2) :=
  velocidades_cotas_aux casos diasAnalisis hne hnn hdias

/-- The eight one-case days used by the C3 counterexample: the inclusive
window `[-7, 0]` of a 7-day analysis contains 8 calendar dates. -/
def registrosTestigoC3 : List RegistroClinico :=
  (List.range 8).map (fun i =>
    { enfermedad := "dengue", fechaConsulta := -(i : Int), distrito := "A",
      esContagioso := false, latitud := 0, longitud := 0 })

/-- C3 counterexample: with one case on each of the 8 calendar dates inside
the inclusive 7-day window, `averagePerDay = 8/7 > 1 = peakPerDay`, so
`averagePerDay ≤ peakPerDay` fails on the code for a non-empty aggregated
case list and a valid window (7 days). -/
theorem calcularVelocidades_promedio_supera_maxima :
    obtenerCasosTemporales registrosTestigoC3 "dengue" (-7) 0 ≠ [] ∧
    (calcularVelocidades (obtenerCasosTemporales registrosTestigoC3 "dengue" (-7) 0) 7).2 <
    (calcularVelocidades (obtenerCasosTemporales registrosTestigoC3 "dengue" (-7) 0) 7).1 := by
  constructor
  · with_unfolding_all decide
  · with_unfolding_all decide

/-- Witness for C3 (amended): three cases on a single day in a 7-day
window give average 3/7 and peak 3. -/
theorem calcularVelocidades_cotas_witness :
    (0 : ℚ) ≤ (calcularVelocidades
      (obtenerCasosTemporales (List.replicate 3 registroTestigoC8) "dengue" (-7) 0) 7).1 ∧
    (calcularVelocidades
      (obtenerCasosTemporales (List.replicate 3 registroTestigoC8) "dengue" (-7) 0) 7).1 ≤
    (calcularVelocidades
      (obtenerCasosTemporales (List.replicate 3 registroTestigoC8) "dengue" (-7) 0) 7).2 := by
  have h := calcularVelocidades_cotas
    (obtenerCasosTemporales (List.replicate 3 registroTestigoC8) "dengue" (-7) 0) 7
    (by with_unfolding_all decide)
    (by
      intro c hc
      have hl : obtenerCasosTemporales (List.replicate 3 registroTestigoC8) "dengue" (-7) 0 =
          [{ fecha := 0, distrito := "A", totalCasos := 3, casosContagiosos := 0,
             coordenadas := { latitud := 0, longitud := 0 } }] := by
        with_unfolding_all decide
      rw [hl] at hc
      rcases List.mem_singleton.mp hc with rfl
      decide)
    (by decide)
  exact ⟨h.1, h.2.2 (by with_unfolding_all decide)⟩

/-! ### C6: probability bound over the full pipeline -/

theorem densidadRegistrada_nonneg (k : String) : 0 ≤ densidadRegistrada k := by
  unfold densidadRegistrada
  cases hreg : densidadPoblacionalSantaCruz k with
  | none => exact le_refl 0
  | some info => exact registro_densidad_nonneg k info hreg

theorem obtener_totales_nonneg (registros : List RegistroClinico) (enfermedad : String)
    (fechaInicio fechaFin : Int) :
    ∀ c ∈ obtenerCasosTemporales registros enfermedad fechaInicio fechaFin,
      0 ≤ c.totalCasos := by
  intro c hc
  unfold obtenerCasosTemporales at hc
  obtain ⟨clave, _, hcx⟩ := List.mem_map.mp hc
  rw [← hcx]
  exact Int.natCast_nonneg _

theorem total_nonneg_pasoMapa (m : List (String × DistritoAfectado)) (caso : CasoTemporal)
    (hc : 0 ≤ caso.totalCasos) (h : ∀ kd ∈ m, 0 ≤ kd.2.totalCasos) :
    ∀ kd ∈ pasoMapaDistritos m caso, 0 ≤ kd.2.totalCasos := by
  intro kd hkd
  unfold pasoMapaDistritos at hkd
  split at hkd
  · obtain ⟨kd0, hkd0, heq⟩ := List.mem_map.mp hkd
    by_cases hk : kd0.1 = caso.distrito
    · rw [if_pos hk] at heq
      cases heq
      exact add_nonneg (h kd0 hkd0) hc
    · rw [if_neg hk] at heq
      rw [← heq]
      exact h kd0 hkd0
  · rcases List.mem_append.mp hkd with h1 | h2
    · exact h kd h1
    · have heq : kd = (caso.distrito, nuevoDistrito caso) := by simpa using h2
      cases heq
      exact hc

theorem total_nonneg_foldl (casos : List CasoTemporal) (m0 : List (String × DistritoAfectado))
    (hnn : ∀ c ∈ casos, 0 ≤ c.totalCasos) (h0 : ∀ kd ∈ m0, 0 ≤ kd.2.totalCasos) :
    ∀ kd ∈ casos.foldl pasoMapaDistritos m0, 0 ≤ kd.2.totalCasos := by
  induction casos generalizing m0 with
  | nil => exact h0
  | cons c cs ih =>
    exact ih _ (fun c2 hc2 => hnn c2 (List.mem_cons_of_mem _ hc2))
      (total_nonneg_pasoMapa m0 c (hnn c (List.mem_cons_self _ _)) h0)

theorem total_nonneg_construirMapa (casos : List CasoTemporal)
    (hnn : ∀ c ∈ casos, 0 ≤ c.totalCasos) :
    ∀ kd ∈ construirMapaDistritos casos, 0 ≤ kd.2.totalCasos :=
  total_nonneg_foldl casos [] hnn (by simp)

theorem finalizarDistrito_velocidad (d : DistritoAfectado) :
    (finalizarDistrito d).velocidadLocal =
    if 0 < d.ultimoCaso - d.primerCaso + 1
    then (d.totalCasos : ℚ) / ((d.ultimoCaso - d.primerCaso + 1 : Int) : ℚ)
    else d.velocidadLocal := by
  unfold finalizarDistrito
  by_cases h : (0 : Int) < d.ultimoCaso - d.primerCaso + 1
  · simp only [if_pos h]
  · simp only [if_neg h]

theorem analizar_cotas (casos : List CasoTemporal) (orden : List String)
    (hnn : ∀ c ∈ casos, 0 ≤ c.totalCasos) :
    ∀ d ∈ analizarDistritosAfectados casos orden,
      0 ≤ d.densidadHab ∧ 0 ≤ d.velocidadLocal := by
  intro d hd
  unfold analizarDistritosAfectados at hd
  have hd2 := (List.perm_insertionSort _ _).mem_iff.mp hd
  obtain ⟨k, _, hfk⟩ := List.mem_filterMap.mp hd2
  cases hfind : (construirMapaDistritos casos).find? (fun kd => kd.1 = k) with
  | none =>
    rw [hfind] at hfk
    exact absurd hfk (by simp)
  | some kd =>
    rw [hfind] at hfk
    have hdkd : d = finalizarDistrito kd.2 := (Option.some.inj hfk).symm
    have hkdm := List.mem_of_find?_eq_some hfind
    have hinv := invariante_construirMapa casos kd hkdm
    have htot := total_nonneg_construirMapa casos hnn kd hkdm
    constructor
    · rw [hdkd, finalizarDistrito_densidadHab, hinv.2.1]
      exact densidadRegistrada_nonneg kd.1
    · rw [hdkd, finalizarDistrito_velocidad]
      by_cases h : (0 : Int) < kd.2.ultimoCaso - kd.2.primerCaso + 1
      · rw [if_pos h]
        exact div_nonneg (by exact_mod_cast htot) (by exact_mod_cast le_of_lt h)
      · rw [if_neg h, hinv.2.2]

theorem calcularFactorDensidad_nonneg (distritos : List DistritoAfectado)
    (h : ∀ d ∈ distritos, 0 ≤ d.densidadHab ∧ 0 ≤ d.velocidadLocal) :
    0 ≤ calcularFactorDensidad distritos := by
  unfold calcularFactorDensidad
  by_cases hS : distritos = []
  · rw [if_pos hS]
  · rw [if_neg hS]
    apply div_nonneg
    · apply List.sum_nonneg
      intro x hx
      obtain ⟨d, hdm, hdx⟩ := List.mem_map.mp hx
      rw [← hdx]
      have hd := h d hdm
      have h1 : (0 : ℚ) ≤ (d.densidadHab : ℚ) := by exact_mod_cast hd.1
      have h2 := hd.2
      positivity
    · positivity

theorem goRound_prob_cotas (x : ℚ) (h0 : 0 ≤ x) (h1 : x ≤ 100) :
    0 ≤ goRound (x * 100) / 100 ∧ goRound (x * 100) / 100 ≤ 100 := by
  have hx0 : (0 : ℚ) ≤ x * 100 := by positivity
  unfold goRound
  rw [if_pos hx0]
  constructor
  · apply div_nonneg _ (by norm_num)
    have h2 : (0 : Int) ≤ ⌊x * 100 + 1/2⌋ := Int.le_floor.mpr (by push_cast; linarith)
    exact_mod_cast h2
  · rw [div_le_iff₀ (by norm_num)]
    have h2 : ⌊x * 100 + 1/2⌋ ≤ 10000 := by
      have h3 : ⌊x * 100 + 1/2⌋ ≤ ⌊(10000 : ℚ) + 1/2⌋ := Int.floor_le_floor (by linarith)
      have h4 : ⌊(10000 : ℚ) + 1/2⌋ = 10000 := by norm_num
      omega
    calc ((⌊x * 100 + 1/2⌋ : Int) : ℚ) ≤ 10000 := by exact_mod_cast h2
      _ = 100 * 100 := by norm_num

/-- C6: whenever the analysis succeeds (non-empty affected set) under a
valid window, every emitted prediction's reported probability lies in
`[0, 100]`. -/
theorem analyzeSpreadVelocity_probabilidad_en_rango (T : OpsTrig)
    (registros : List RegistroClinico) (enfermedad : String) (diasAnalisis ahora : Int)
    (ordenDistritos ordenRegistro : List String) (res : VelocidadPropagacion)
    (hdias : 0 < diasAnalisis)
    (hok : analyzeSpreadVelocity T registros enfermedad diasAnalisis ahora
      ordenDistritos ordenRegistro = Except.ok res) :
    ∀ p ∈ res.predictedSpread, 0 ≤ p.probabilidad ∧ p.probabilidad ≤ 100 := by
  unfold analyzeSpreadVelocity at hok
  by_cases hempty : obtenerCasosTemporales registros enfermedad (ahora - diasAnalisis) ahora = []
  · rw [if_pos hempty] at hok
    exact absurd hok (by simp)
  · rw [if_neg hempty] at hok
    dsimp only at hok
    have hres := Except.ok.inj hok
    rw [← hres]
    dsimp only
    intro p hp
    have hnn := obtener_totales_nonneg registros enfermedad (ahora - diasAnalisis) ahora
    obtain ⟨nombre, _, info, hreg, _, hpred⟩ := mem_generarPredicciones _ _ _ _ _ p hp
    have hprob : p.probabilidad = goRound (probLimitada info
        (calcularVelocidades (obtenerCasosTemporales registros enfermedad
          (ahora - diasAnalisis) ahora) diasAnalisis).1
        (calcularFactorDensidad (calcularRutasPropagacion T (analizarDistritosAfectados
          (obtenerCasosTemporales registros enfermedad (ahora - diasAnalisis) ahora)
          ordenDistritos)).2) * 100) / 100 := by
      rw [hpred]
      rfl
    rw [hprob]
    have hv : 0 ≤ (calcularVelocidades (obtenerCasosTemporales registros enfermedad
        (ahora - diasAnalisis) ahora) diasAnalisis).1 :=
      (velocidades_cotas_aux _ diasAnalisis hempty hnn hdias).1
    have hf : 0 ≤ calcularFactorDensidad (calcularRutasPropagacion T
        (analizarDistritosAfectados (obtenerCasosTemporales registros enfermedad
          (ahora - diasAnalisis) ahora) ordenDistritos)).2 := by
      apply calcularFactorDensidad_nonneg
      intro d hd
      exact analizar_cotas _ ordenDistritos hnn d ((List.perm_insertionSort _ _).mem_iff.mp hd)
    have hcotas := probLimitada_cotas info _ _ hv hf (registro_densidad_nonneg nombre info hreg)
    exact goRound_prob_cotas _ hcotas.1 hcotas.2

/-- Witness for C6 at a concrete successful analysis. -/
theorem analyzeSpreadVelocity_probabilidad_en_rango_witness :
    (match analyzeSpreadVelocity opsTrigCero [registroTestigoC8] "dengue" 30 0 ["A"]
        clavesRegistro with
     | Except.ok res => res.predictedSpread.all (fun p =>
         decide (0 ≤ p.probabilidad ∧ p.probabilidad ≤ 100))
     | Except.error _ => false) = true := by
  cases h : analyzeSpreadVelocity opsTrigCero [registroTestigoC8] "dengue" 30 0 ["A"]
      clavesRegistro with
  | error e =>
    exfalso
    have h2 : esError (analyzeSpreadVelocity opsTrigCero [registroTestigoC8] "dengue" 30 0 ["A"]
        clavesRegistro) = false := by
      with_unfolding_all decide
    rw [h] at h2
    exact absurd h2 (by simp [esError])
  | ok res =>
    apply List.all_eq_true.mpr
    intro p hp
    exact decide_eq_true (analyzeSpreadVelocity_probabilidad_en_rango opsTrigCero
      [registroTestigoC8] "dengue" 30 0 ["A"] clavesRegistro res (by decide) h p hp)

/-! ### C1: determinism up to map-iteration order.

The Go engine iterates two hash maps (the affected-district map and the
registry) whose iteration order is not deterministic, and `sort.Slice` is
not stable, so ties in the sort keys make the emitted LIST ORDER depend on
the iteration order.  The multiset of list elements and all scalar outputs
are iteration-order independent; the lemmas below establish that. -/

theorem flatMap_congr_mem {α β : Type} {f g : α → List β} {l : List α}
    (h : ∀ a ∈ l, f a = g a) : l.flatMap f = l.flatMap g := by
  induction l with
  | nil => rfl
  | cons a t ih =>
    rw [List.flatMap_cons, List.flatMap_cons, h a (List.mem_cons_self _ _),
      ih (fun a2 ha2 => h a2 (List.mem_cons_of_mem _ ha2))]

theorem flatMap_perm_congr {α β : Type} {f g : α → List β} {l : List α}
    (h : ∀ a ∈ l, (f a).Perm (g a)) : (l.flatMap f).Perm (l.flatMap g) := by
  induction l with
  | nil => exact List.Perm.refl _
  | cons a t ih =>
    rw [List.flatMap_cons, List.flatMap_cons]
    exact (h a (List.mem_cons_self _ _)).append
      (ih (fun a2 ha2 => h a2 (List.mem_cons_of_mem _ ha2)))

theorem destinosConectados_perm (T : OpsTrig) (origen : DistritoAfectado) (conectado : String)
    {l1 l2 : List DistritoAfectado} (h : l1.Perm l2) :
    (destinosConectados T origen conectado l1).Perm (destinosConectados T origen conectado l2) :=
  List.Perm.filterMap _ h

theorem rutasDesde_perm (T : OpsTrig) (origen : DistritoAfectado)
    {l1 l2 : List DistritoAfectado} (h : l1.Perm l2) :
    (rutasDesde T origen l1).Perm (rutasDesde T origen l2) := by
  unfold rutasDesde
  cases densidadPoblacionalSantaCruz origen.distrito with
  | none => exact List.Perm.refl _
  | some info =>
    exact flatMap_perm_congr (fun c _ => destinosConectados_perm T origen c h)

/-- The whole-list form of the route double loop: for a list sorted by
first-case date, scanning the full list for each origin gives exactly the
suffix scan, because earlier entries can never satisfy `0 < transitionDays`. -/
def bucleRutas (T : OpsTrig) (S : List DistritoAfectado) : List RutaPropagacion :=
  S.flatMap (fun origen => rutasDesde T origen S)

theorem destinosConectados_cons_alcanzado (T : OpsTrig) (origen cabeza : DistritoAfectado)
    (conectado : String) (resto : List DistritoAfectado)
    (h : cabeza.primerCaso ≤ origen.primerCaso) :
    destinosConectados T origen conectado (cabeza :: resto) =
    destinosConectados T origen conectado resto := by
  unfold destinosConectados
  rw [List.filterMap_cons]
  have hcond : ¬(cabeza.distrito = conectado ∧
      0 < cabeza.primerCaso - origen.primerCaso ∧
      cabeza.primerCaso - origen.primerCaso ≤ 14) := by
    rintro ⟨_, hpos, _⟩
    omega
  rw [if_neg hcond]

theorem rutasDesde_cons_alcanzado (T : OpsTrig) (origen cabeza : DistritoAfectado)
    (resto : List DistritoAfectado) (h : cabeza.primerCaso ≤ origen.primerCaso) :
    rutasDesde T origen (cabeza :: resto) = rutasDesde T origen resto := by
  unfold rutasDesde
  cases densidadPoblacionalSantaCruz origen.distrito with
  | none => rfl
  | some info =>
    exact flatMap_congr_mem (fun c _ => destinosConectados_cons_alcanzado T origen cabeza c resto h)

theorem rutasAux_eq_bucle (T : OpsTrig) (S : List DistritoAfectado)
    (hsorted : S.Pairwise (fun a b => a.primerCaso ≤ b.primerCaso)) :
    rutasAux T S = bucleRutas T S := by
  induction S with
  | nil => rfl
  | cons origen resto ih =>
    have hcab : ∀ o ∈ resto, origen.primerCaso ≤ o.primerCaso :=
      fun o ho => List.rel_of_pairwise_cons hsorted ho
    rw [rutasAux]
    unfold bucleRutas
    rw [List.flatMap_cons]
    have h1 : rutasDesde T origen (origen :: resto) = rutasDesde T origen resto :=
      rutasDesde_cons_alcanzado T origen origen resto (le_refl _)
    have h2 : resto.flatMap (fun o => rutasDesde T o (origen :: resto)) =
        resto.flatMap (fun o => rutasDesde T o resto) :=
      flatMap_congr_mem (fun o ho => rutasDesde_cons_alcanzado T o origen resto (hcab o ho))
    rw [h1, h2]
    rw [ih (List.Pairwise.of_cons hsorted)]
    rfl

theorem bucleRutas_perm (T : OpsTrig) {S1 S2 : List DistritoAfectado} (h : S1.Perm S2) :
    (bucleRutas T S1).Perm (bucleRutas T S2) := by
  unfold bucleRutas
  exact (flatMap_perm_congr (fun o _ => rutasDesde_perm T o h)).trans
    (List.Perm.flatMap_right _ h)

theorem rutasAux_perm_de_ordenados (T : OpsTrig) {S1 S2 : List DistritoAfectado}
    (h : S1.Perm S2)
    (hs1 : S1.Pairwise (fun a b => a.primerCaso ≤ b.primerCaso))
    (hs2 : S2.Pairwise (fun a b => a.primerCaso ≤ b.primerCaso)) :
    (rutasAux T S1).Perm (rutasAux T S2) := by
  rw [rutasAux_eq_bucle T S1 hs1, rutasAux_eq_bucle T S2 hs2]
  exact bucleRutas_perm T h

theorem analizar_perm (casos : List CasoTemporal) {o1 o2 : List String} (h : o1.Perm o2) :
    (analizarDistritosAfectados casos o1).Perm (analizarDistritosAfectados casos o2) := by
  unfold analizarDistritosAfectados
  exact (List.perm_insertionSort _ _).trans
    ((List.Perm.filterMap _ h).trans (List.perm_insertionSort _ _).symm)

theorem nombre_elemento_analizar (casos : List CasoTemporal) (k : String) (d : DistritoAfectado)
    (h : ((construirMapaDistritos casos).find? (fun kd => kd.1 = k)).map
      (fun kd => finalizarDistrito kd.2) = some d) : d.distrito = k := by
  cases hfind : (construirMapaDistritos casos).find? (fun kd => kd.1 = k) with
  | none =>
    rw [hfind] at h
    exact absurd h (by simp)
  | some kd =>
    rw [hfind] at h
    have hd : d = finalizarDistrito kd.2 := (Option.some.inj h).symm
    have hkfst : kd.1 = k := by
      have h2 := List.find?_some hfind
      exact of_decide_eq_true h2
    have hinv := invariante_construirMapa casos kd (List.mem_of_find?_eq_some hfind)
    rw [hd, finalizarDistrito_distrito, hinv.1, hkfst]

theorem nombres_filterMap_nodup (casos : List CasoTemporal) (orden : List String)
    (hnd : orden.Nodup) :
    ((orden.filterMap (fun k => ((construirMapaDistritos casos).find? (fun kd => kd.1 = k)).map
      (fun kd => finalizarDistrito kd.2))).map (fun d => d.distrito)).Nodup := by
  induction orden with
  | nil => simp
  | cons k ks ih =>
    obtain ⟨hknotin, hksnd⟩ := List.nodup_cons.mp hnd
    rw [List.filterMap_cons]
    cases hf : ((construirMapaDistritos casos).find? (fun kd => kd.1 = k)).map
        (fun kd => finalizarDistrito kd.2) with
    | none => exact ih hksnd
    | some d =>
      rw [List.map_cons]
      apply List.nodup_cons.mpr
      refine ⟨?_, ih hksnd⟩
      intro hmem
      obtain ⟨d2, hd2mem, hd2⟩ := List.mem_map.mp hmem
      obtain ⟨k2, hk2, hf2⟩ := List.mem_filterMap.mp hd2mem
      have h1 : d.distrito = k := nombre_elemento_analizar casos k d hf
      have h2 : d2.distrito = k2 := nombre_elemento_analizar casos k2 d2 hf2
      have hkk : k2 = k := by rw [← h2, hd2, h1]
      rw [hkk] at hk2
      exact hknotin hk2

theorem nombres_analizar_nodup (casos : List CasoTemporal) (orden : List String)
    (hnd : orden.Nodup) :
    ((analizarDistritosAfectados casos orden).map (fun d => d.distrito)).Nodup := by
  unfold analizarDistritosAfectados
  have hperm := (List.perm_insertionSort
    (fun a b : DistritoAfectado => b.totalCasos ≤ a.totalCasos)
    (orden.filterMap (fun k => ((construirMapaDistritos casos).find? (fun kd => kd.1 = k)).map
      (fun kd => finalizarDistrito kd.2)))).map (fun d => d.distrito)
  exact hperm.symm.nodup (nombres_filterMap_nodup casos orden hnd)

theorem find?_distrito_eq_de_perm {L1 L2 : List DistritoAfectado} (h : L1.Perm L2)
    (hnd : (L1.map (fun d => d.distrito)).Nodup) (nombre : String) :
    L1.find? (fun d => d.distrito = nombre) = L2.find? (fun d => d.distrito = nombre) := by
  cases h1 : L1.find? (fun d => d.distrito = nombre) with
  | none =>
    rw [List.find?_eq_none] at h1
    symm
    rw [List.find?_eq_none]
    intro x hx
    exact h1 x (h.mem_iff.mpr hx)
  | some d =>
    have hdmem : d ∈ L1 := List.mem_of_find?_eq_some h1
    have hdp : d.distrito = nombre := by
      have h2 := List.find?_some h1
      exact of_decide_eq_true h2
    cases h2 : L2.find? (fun d => d.distrito = nombre) with
    | none =>
      rw [List.find?_eq_none] at h2
      exact absurd (decide_eq_true hdp) (h2 d (h.mem_iff.mp hdmem))
    | some d2 =>
      have hd2mem : d2 ∈ L2 := List.mem_of_find?_eq_some h2
      have hd2p : d2.distrito = nombre := by
        have h3 := List.find?_some h2
        exact of_decide_eq_true h3
      have heq : d2 = d := List.inj_on_of_nodup_map hnd (h.mem_iff.mpr hd2mem) hdmem
        (by rw [hd2p, hdp])
      rw [heq]

theorem calcularFactorDensidad_perm {L1 L2 : List DistritoAfectado} (h : L1.Perm L2) :
    calcularFactorDensidad L1 = calcularFactorDensidad L2 := by
  unfold calcularFactorDensidad
  by_cases h1 : L1 = []
  · have h2 : L2 = [] := by
      rw [h1] at h
      exact h.symm.eq_nil
    rw [if_pos h1, if_pos h2]
  · have h2 : L2 ≠ [] := by
      intro he
      rw [he] at h
      exact h1 h.eq_nil
    rw [if_neg h1, if_neg h2, (h.map (fun d => (d.densidadHab : ℚ) * d.velocidadLocal / 1000)).sum_eq,
      h.length_eq]

theorem generarRecomendaciones_perm {L1 L2 : List DistritoAfectado} (h : L1.Perm L2)
    (v f : ℚ) :
    (generarRecomendaciones L1 v f).Perm (generarRecomendaciones L2 v f) := by
  unfold generarRecomendaciones
  exact (((List.Perm.refl _).append (List.Perm.refl _)).append
    (List.Perm.filterMap _ h)).append (List.Perm.refl _)

theorem generarPredicciones_perm {L1 L2 : List DistritoAfectado} (hL : L1.Perm L2)
    (hnd : (L1.map (fun d => d.distrito)).Nodup) (v f : ℚ) (ahora : Int)
    {r1 r2 : List String} (hr : r1.Perm r2) :
    (generarPredicciones L1 v f ahora r1).Perm (generarPredicciones L2 v f ahora r2) := by
  unfold generarPredicciones
  refine (List.perm_insertionSort _ _).trans
    (List.Perm.trans ?_ (List.perm_insertionSort _ _).symm)
  have hFeq : ∀ nombre, prediccionPara L1 v f ahora nombre = prediccionPara L2 v f ahora nombre := by
    intro nombre
    unfold prediccionPara
    rw [find?_distrito_eq_de_perm hL hnd nombre]
  have h1 : r1.filterMap (prediccionPara L1 v f ahora) =
      r1.filterMap (prediccionPara L2 v f ahora) :=
    List.filterMap_congr (fun x _ => hFeq x)
  rw [h1]
  exact List.Perm.filterMap _ hr

/-- Equality of two analysis outcomes up to reordering of the four output
lists: identical error, or identical scalar fields with the
affected-district, route, prediction and recommendation lists equal as
multisets. -/
def salidaEquivalente (s1 s2 : Except String VelocidadPropagacion) : Prop :=
  match s1, s2 with
  | Except.error e1, Except.error e2 => e1 = e2
  | Except.ok v1, Except.ok v2 =>
      v1.enfermedad = v2.enfermedad ∧
      v1.periodoAnalisis = v2.periodoAnalisis ∧
      v1.velocidadPromedio = v2.velocidadPromedio ∧
      v1.velocidadMaxima = v2.velocidadMaxima ∧
      v1.factorDensidad = v2.factorDensidad ∧
      v1.distritosAfectados.Perm v2.distritosAfectados ∧
      v1.rutasPropagacion.Perm v2.rutasPropagacion ∧
      v1.predictedSpread.Perm v2.predictedSpread ∧
      v1.recomendacionesAlert.Perm v2.recomendacionesAlert
  | _, _ => False

/-- C1 (amended): for fixed `(cases, disease, analysisWindowDays, now)` the
engine is deterministic only up to the hash-map iteration orders: any two
invocations (any two valid iteration orders of the affected-district map and
of the registry) agree on the error outcome and on every scalar field, and
their affected-district, route, prediction and recommendation lists are
permutations of each other — but the element ORDER of those lists can
differ, because `sort.Slice` ties are broken by the nondeterministic
iteration order (see the counterexample). -/
theorem analyzeSpreadVelocity_equivalente_bajo_ordenes (T : OpsTrig)
    (registros : List RegistroClinico) (enfermedad : String) (diasAnalisis ahora : Int)
    (o1 o2 r1 r2 : List String)
    (ho1 : ordenDistritosValido
      (obtenerCasosTemporales registros enfermedad (ahora - diasAnalisis) ahora) o1)
    (ho2 : ordenDistritosValido
      (obtenerCasosTemporales registros enfermedad (ahora - diasAnalisis) ahora) o2)
    (hr1 : r1.Perm clavesRegistro) (hr2 : r2.Perm clavesRegistro) :
    salidaEquivalente
      (analyzeSpreadVelocity T registros enfermedad diasAnalisis ahora o1 r1)
      (analyzeSpreadVelocity T registros enfermedad diasAnalisis ahora o2 r2) := by
  unfold analyzeSpreadVelocity
  dsimp only
  by_cases hempty :
      obtenerCasosTemporales registros enfermedad (ahora - diasAnalisis) ahora = []
  · rw [if_pos hempty, if_pos hempty]
    exact rfl
  · rw [if_neg hempty, if_neg hempty]
    simp only [salidaEquivalente]
    have hoo : o1.Perm o2 := ho1.trans ho2.symm
    have hrr : r1.Perm r2 := hr1.trans hr2.symm
    have hA : (analizarDistritosAfectados
        (obtenerCasosTemporales registros enfermedad (ahora - diasAnalisis) ahora) o1).Perm
      (analizarDistritosAfectados
        (obtenerCasosTemporales registros enfermedad (ahora - diasAnalisis) ahora) o2) :=
      analizar_perm _ hoo
    haveI htot : IsTotal DistritoAfectado (fun a b => a.primerCaso ≤ b.primerCaso) :=
      ⟨fun a b => le_total _ _⟩
    haveI htrans : IsTrans DistritoAfectado (fun a b => a.primerCaso ≤ b.primerCaso) :=
      ⟨fun _ _ _ hab hbc => le_trans hab hbc⟩
    have hS : ((calcularRutasPropagacion T (analizarDistritosAfectados
        (obtenerCasosTemporales registros enfermedad (ahora - diasAnalisis) ahora) o1)).2).Perm
      ((calcularRutasPropagacion T (analizarDistritosAfectados
        (obtenerCasosTemporales registros enfermedad (ahora - diasAnalisis) ahora) o2)).2) := by
      unfold calcularRutasPropagacion
      exact (List.perm_insertionSort _ _).trans (hA.trans (List.perm_insertionSort _ _).symm)
    have hsort1 : ((calcularRutasPropagacion T (analizarDistritosAfectados
        (obtenerCasosTemporales registros enfermedad (ahora - diasAnalisis) ahora) o1)).2).Pairwise
        (fun a b => a.primerCaso ≤ b.primerCaso) := by
      unfold calcularRutasPropagacion
      exact List.sorted_insertionSort _ _
    have hsort2 : ((calcularRutasPropagacion T (analizarDistritosAfectados
        (obtenerCasosTemporales registros enfermedad (ahora - diasAnalisis) ahora) o2)).2).Pairwise
        (fun a b => a.primerCaso ≤ b.primerCaso) := by
      unfold calcularRutasPropagacion
      exact List.sorted_insertionSort _ _
    have hrutas : ((calcularRutasPropagacion T (analizarDistritosAfectados
        (obtenerCasosTemporales registros enfermedad (ahora - diasAnalisis) ahora) o1)).1).Perm
      ((calcularRutasPropagacion T (analizarDistritosAfectados
        (obtenerCasosTemporales registros enfermedad (ahora - diasAnalisis) ahora) o2)).1) := by
      refine rutasAux_perm_de_ordenados T ?_ hsort1 hsort2
      exact hS
    have hndS : (((calcularRutasPropagacion T (analizarDistritosAfectados
        (obtenerCasosTemporales registros enfermedad (ahora - diasAnalisis) ahora) o1)).2).map
        (fun d : DistritoAfectado => d.distrito)).Nodup := by
      unfold calcularRutasPropagacion
      have ho1nodup : o1.Nodup := ho1.symm.nodup (claves_nodup_construirMapa _)
      have hnombres := nombres_analizar_nodup
        (obtenerCasosTemporales registros enfermedad (ahora - diasAnalisis) ahora) o1 ho1nodup
      exact ((List.perm_insertionSort _ _).map
        (fun d : DistritoAfectado => d.distrito)).symm.nodup hnombres
    have hfactor : calcularFactorDensidad ((calcularRutasPropagacion T
        (analizarDistritosAfectados (obtenerCasosTemporales registros enfermedad
          (ahora - diasAnalisis) ahora) o1)).2) =
      calcularFactorDensidad ((calcularRutasPropagacion T
        (analizarDistritosAfectados (obtenerCasosTemporales registros enfermedad
          (ahora - diasAnalisis) ahora) o2)).2) :=
      calcularFactorDensidad_perm hS
    refine ⟨trivial, trivial, trivial, trivial, hfactor, hS, hrutas, ?_, ?_⟩
    · rw [hfactor]
      exact generarPredicciones_perm hS hndS _ _ ahora hrr
    · rw [hfactor]
      exact generarRecomendaciones_perm hS _ _

/-- Concrete two-district input (both names outside the registry, same day,
same counts) used by the C1 counterexample and witness. -/
def registrosTestigoC1 : List RegistroClinico :=
  [registroTestigoC8, { registroTestigoC8 with distrito := "B" }]

/-- C1 counterexample: the two map-iteration orders `["A", "B"]` and
`["B", "A"]` are both valid for the same fixed input
`(cases, disease, window, now)`, yet the two invocations return different
outputs (the affected-district list is ordered differently, the totals
being tied), so the engine's output is not identical across invocations. -/
theorem analyzeSpreadVelocity_depende_del_orden :
    ordenDistritosValido
      (obtenerCasosTemporales registrosTestigoC1 "dengue" (-30) 0) ["A", "B"] ∧
    ordenDistritosValido
      (obtenerCasosTemporales registrosTestigoC1 "dengue" (-30) 0) ["B", "A"] ∧
    analyzeSpreadVelocity opsTrigCero registrosTestigoC1 "dengue" 30 0 ["A", "B"]
      clavesRegistro ≠
    analyzeSpreadVelocity opsTrigCero registrosTestigoC1 "dengue" 30 0 ["B", "A"]
      clavesRegistro := by
  refine ⟨?_, ?_, ?_⟩
  · with_unfolding_all decide
  · with_unfolding_all decide
  · with_unfolding_all decide

/-- Witness for C1 (amended): the two valid iteration orders above yield
equivalent (permuted) outputs. -/
theorem analyzeSpreadVelocity_equivalente_bajo_ordenes_witness :
    salidaEquivalente
      (analyzeSpreadVelocity opsTrigCero registrosTestigoC1 "dengue" 30 0 ["A", "B"]
        clavesRegistro)
      (analyzeSpreadVelocity opsTrigCero registrosTestigoC1 "dengue" 30 0 ["B", "A"]
        clavesRegistro) :=
  analyzeSpreadVelocity_equivalente_bajo_ordenes opsTrigCero registrosTestigoC1 "dengue" 30 0
    ["A", "B"] ["B", "A"] clavesRegistro clavesRegistro
    (by with_unfolding_all decide) (by with_unfolding_all decide)
    (List.Perm.refl _) (List.Perm.refl _)

end Propagacion
